import Mathlib

/-!
Shallow embedding of the blixt dataplane core (kubernetes-sigs/blixt):
the shared map data model (`src/dataplane/common/src/lib.rs`), the TCP
connection state machine and map helpers (`src/dataplane/ebpf/src/utils.rs`),
the ingress/egress TCP classifiers (`src/dataplane/ebpf/src/ingress/tcp.rs`,
`src/dataplane/ebpf/src/egress/tcp.rs`), the classifier entry point
(`src/dataplane/ebpf/src/main.rs`) and the configuration RPC service
(`src/dataplane/api-server/src/server.rs`).

Machine integers are modelled as `Nat` with explicit `% 2^w` at the points
where the source performs a narrowing cast.  The eBPF target is
little-endian, so `u32::from_be` / `u32::to_be` are both the byte-swap
`bswap32` (and likewise `bswap16` for `u16`).  The kernel maps are modelled
as association lists with unique keys: per-key lookup/upsert, and a remove
that fails (like `bpf_map_delete_elem` / the aya user-space `remove`) when
the key is absent.  The packet-helper primitives (`bpf_l3_csum_replace`,
`bpf_l4_csum_replace`, `bpf_skb_store_bytes`) are modelled as succeeding;
`bpf_redirect_neigh` is an opaque parameter where its value matters.
-/

namespace Blixt

/-- Byte swap of a 16-bit value: models `u16::from_be` / `u16::to_be` on the
little-endian eBPF target. -/
def bswap16 (n : Nat) : Nat :=
  (n % 256) * 256 + (n / 256) % 256

/-- Byte swap of a 32-bit value: models `u32::from_be` / `u32::to_be` on the
little-endian eBPF target. -/
def bswap32 (n : Nat) : Nat :=
  (n % 256) * 16777216 + (n / 256 % 256) * 65536 +
    (n / 65536 % 256) * 256 + n / 16777216 % 256

/-! ## Data model (`dataplane/common/src/lib.rs`) -/

/-- `BACKENDS_ARRAY_CAPACITY` from `common/src/lib.rs`. -/
def BACKENDS_ARRAY_CAPACITY : Nat := 128

/-- `Backend` from `common/src/lib.rs`: `daddr : u32`, `dport : u32`,
`ifindex : u16`. -/
structure Backend where
  daddr : Nat
  dport : Nat
  ifindex : Nat
deriving DecidableEq

/-- `Backend::default()`: all fields zero. -/
def Backend.default : Backend := { daddr := 0, dport := 0, ifindex := 0 }

/-- `BackendKey` from `common/src/lib.rs`: VIP `ip : u32`, `port : u32`,
host order. -/
structure BackendKey where
  ip : Nat
  port : Nat
deriving DecidableEq

/-- `BackendList` from `common/src/lib.rs`: a fixed array of
`BACKENDS_ARRAY_CAPACITY` backends (modelled as a total index function)
together with `backends_len : u16`, the number of live entries. -/
structure BackendList where
  backends : Nat → Backend
  backends_len : Nat

/-- `ClientKey` from `common/src/lib.rs`: source `ip : u32`,
source `port : u32` (0 for UDP flows). -/
structure ClientKey where
  ip : Nat
  port : Nat
deriving DecidableEq

/-- `TCPState` from `common/src/lib.rs`; `Established` is the `Default`. -/
inductive TCPState where
  | Established
  | FinWait1
  | FinWait2
  | Closing
  | TimeWait
  | Closed
deriving DecidableEq, Fintype

/-- `TCPState::default()`. -/
def TCPState.default : TCPState := TCPState.Established

/-- `LoadBalancerMapping`, the `LB_CONNECTIONS` value type as constructed and
consumed by `ingress/tcp.rs`, `egress/tcp.rs` and `server.rs`: the chosen
`Backend`, the origin `BackendKey`, and `tcp_state : Option<TCPState>`
(populated for TCP flows, `None` for UDP flows). -/
structure LoadBalancerMapping where
  backend : Backend
  backend_key : BackendKey
  tcp_state : Option TCPState
deriving DecidableEq

/-! ## Map model

The three shared maps are key/value tables with per-key atomic operations.
We model each as an association list with unique keys. -/

/-- Per-key lookup (`HashMap::get`). -/
def mapLookup {α β : Type} [DecidableEq α] : List (α × β) → α → Option β
  | [], _ => none
  | e :: rest, k => if e.1 = k then some e.2 else mapLookup rest k

/-- Per-key upsert (`HashMap::insert` with flags 0): replaces the value when
the key is present, otherwise appends the entry. -/
def mapUpsert {α β : Type} [DecidableEq α] : List (α × β) → α → β → List (α × β)
  | [], k, v => [(k, v)]
  | e :: rest, k, v => if e.1 = k then (k, v) :: rest else e :: mapUpsert rest k v

/-- Unconditional erasure of a key from the table. -/
def mapErase {α β : Type} [DecidableEq α] : List (α × β) → α → List (α × β)
  | [], _ => []
  | e :: rest, k => if e.1 = k then mapErase rest k else e :: mapErase rest k

/-- The only map error the ideal-map model produces: removing a key that is
not present (`bpf_map_delete_elem` returning `-ENOENT`, which the aya
user-space `remove` surfaces as `syscall failed with code -1`). -/
inductive MapErr where
  | notFound
deriving DecidableEq

/-- Fallible removal (`HashMap::remove`): fails with `notFound` when the key
is absent, otherwise erases the entry. -/
def mapRemove {α β : Type} [DecidableEq α] (m : List (α × β)) (k : α) :
    Except MapErr (List (α × β)) :=
  if (mapLookup m k).isSome then Except.ok (mapErase m k) else Except.error MapErr.notFound

/-- The `match` a Rust caller performs on a fallible operation (including
the `?` operator): continue with the `Ok` value, or stop with a result built
from the error. -/
def exceptFold {ε α β : Type} (e : Except ε α) (err : ε → β) (f : α → β) : β :=
  match e with
  | Except.error x => err x
  | Except.ok a => f a

/-- The three shared maps: `BACKENDS`, `GATEWAY_INDEXES` (round-robin cursor,
`u16`) and `LB_CONNECTIONS`. -/
structure LbState where
  BACKENDS : List (BackendKey × BackendList)
  GATEWAY_INDEXES : List (BackendKey × Nat)
  LB_CONNECTIONS : List (ClientKey × LoadBalancerMapping)

/-! ## TCP connection state machine (`ebpf/src/utils.rs`) -/

/-- `process_tcp_state_transition` from `utils.rs`: pure function of the
current state and the FIN/ACK bits of the header being processed; returns
the next state and whether a transition happened.  The source mutates
`state` through a `&mut` and returns the `bool`; we return the pair. -/
def process_tcp_state_transition (fin ack : Bool) (state : TCPState) :
    TCPState × Bool :=
  match state with
  | TCPState.Established =>
    -- At the Established state, a FIN packet moves the state to FinWait1.
    if fin then (TCPState.FinWait1, true) else (state, false)
  | TCPState.FinWait1 =>
    -- FIN+ACK moves to TimeWait; FIN alone to Closing; ACK alone to FinWait2.
    if fin && ack then (TCPState.TimeWait, true)
    else if fin then (TCPState.Closing, true)
    else if ack then (TCPState.FinWait2, true)
    else (state, false)
  | TCPState.FinWait2 =>
    if ack then (TCPState.TimeWait, true) else (state, false)
  | TCPState.Closing =>
    if ack then (TCPState.TimeWait, true) else (state, false)
  | TCPState.TimeWait =>
    if ack then (TCPState.Closed, true) else (state, false)
  | TCPState.Closed => (state, false)

/-- Folding the state machine over a sequence of headers, each header given
by its (FIN, ACK) bits. -/
def runTcpStates (s : TCPState) : List (Bool × Bool) → TCPState
  | [] => s
  | h :: rest => runTcpStates (process_tcp_state_transition h.1 h.2 s).1 rest

/-- `update_tcp_conns` from `utils.rs`: advances the state machine when
`tcp_state` is populated; on reaching `Closed` removes the entry (the remove
result is returned directly, so an absent key is an error); otherwise, if a
transition happened, upserts the mutated mapping.  Returns the resulting
`LB_CONNECTIONS` table and the (possibly mutated) mapping, since the source
mutates `lb_mapping` through `&mut`. -/
def update_tcp_conns (fin ack : Bool) (client_key : ClientKey)
    (lb_mapping : LoadBalancerMapping)
    (conns : List (ClientKey × LoadBalancerMapping)) :
    Except MapErr (List (ClientKey × LoadBalancerMapping) × LoadBalancerMapping) :=
  match lb_mapping.tcp_state with
  | some tcp_state =>
    let r := process_tcp_state_transition fin ack tcp_state
    let mutated := { lb_mapping with tcp_state := some r.1 }
    if r.1 = TCPState.Closed then
      (mapRemove conns client_key).map (fun c => (c, mutated))
    else if r.2 then
      Except.ok (mapUpsert conns client_key mutated, mutated)
    else
      Except.ok (conns, mutated)
  | none => Except.ok (conns, lb_mapping)

/-! ## TCP packets

A TCP/IPv4 frame as seen by the classifiers: the IPv4 source/destination
addresses and the TCP source/destination ports as they sit on the wire
(big-endian), plus the FIN/ACK/RST flag bits.  The handlers convert at the
boundary with `u32::from_be` / `u16::from_be`. -/
structure TcpPacket where
  src_addr : Nat
  dst_addr : Nat
  source : Nat
  dest : Nat
  fin : Bool
  ack : Bool
  rst : Bool

/-! ## Ingress TCP classifier (`ebpf/src/ingress/tcp.rs`) -/

/-- The observable outcome of `handle_tcp_ingress`:
`pass` for the early `Ok(TC_ACT_OK)` / `ok_or(TC_ACT_OK)?` exits taken before
any rewrite, `redirect b od op` when the frame was rewritten (destination
address bytes `od`, destination port bytes `op`, both wire order) and handed
to `bpf_redirect_neigh(b.ifindex, ...)`, and `mapFailure` when a map
insert/remove returned an error that the `?` operator propagated. -/
inductive IngressVerdict where
  | pass
  | redirect (backend : Backend) (out_daddr out_dport : Nat)
  | mapFailure
deriving DecidableEq

/-- The tail of `handle_tcp_ingress` (lines 101-164), shared by the
existing-connection and new-connection branches: RST removal, then
`update_tcp_conns`, then the destination rewrite and
`bpf_redirect_neigh`, and finally — for a new connection — the
`LB_CONNECTIONS` insert of the (possibly mutated) mapping.  This part of
the handler touches no map besides `LB_CONNECTIONS`, so it consumes and
produces just that table. -/
def tcp_ingress_tail (pkt : TcpPacket) (client_key : ClientKey)
    (backend : Backend) (backend_key : BackendKey)
    (tcp_state : Option TCPState) (new_conn : Bool)
    (conns : List (ClientKey × LoadBalancerMapping)) :
    List (ClientKey × LoadBalancerMapping) × IngressVerdict :=
  -- If the packet has the RST flag set, the connection is being terminated,
  -- so remove it from the map (an absent key makes the remove fail and the
  -- handler return the error).
  let step1 : Except MapErr (List (ClientKey × LoadBalancerMapping)) :=
    if pkt.rst then mapRemove conns client_key else Except.ok conns
  exceptFold step1 (fun _ => (conns, IngressVerdict.mapFailure)) (fun conns1 =>
    let lb_mapping : LoadBalancerMapping :=
      { backend := backend, backend_key := backend_key, tcp_state := tcp_state }
    exceptFold (update_tcp_conns pkt.fin pkt.ack client_key lb_mapping conns1)
      (fun _ => (conns1, IngressVerdict.mapFailure)) (fun r =>
      -- set_ipv4_ip_dst / set_ipv4_dest_port: DNAT to the chosen backend,
      -- `backend.daddr.to_be()` and `(backend.dport as u16).to_be()`;
      -- the csum-replace/store helpers are modelled as succeeding.
      let out_daddr := bswap32 backend.daddr
      let out_dport := bswap16 (backend.dport % 65536)
      if new_conn then
        (mapUpsert r.1 client_key r.2,
          IngressVerdict.redirect backend out_daddr out_dport)
      else
        (r.1, IngressVerdict.redirect backend out_daddr out_dport)))

/-- `handle_tcp_ingress` from `ingress/tcp.rs`: connection affinity via
`LB_CONNECTIONS`, round-robin selection through `GATEWAY_INDEXES` for new
connections, RST teardown, state-machine advance, destination rewrite and
redirect. -/
def handle_tcp_ingress (st : LbState) (pkt : TcpPacket) : LbState × IngressVerdict :=
  let client_key : ClientKey :=
    { ip := bswap32 pkt.src_addr, port := bswap16 pkt.source }
  match mapLookup st.LB_CONNECTIONS client_key with
  | some val =>
    -- Reuse the backend previously chosen for this connection.
    let r := tcp_ingress_tail pkt client_key val.backend val.backend_key
      val.tcp_state false st.LB_CONNECTIONS
    ({ st with LB_CONNECTIONS := r.1 }, r.2)
  | none =>
    -- New connection: assign it the next backend in line.
    let backend_key : BackendKey :=
      { ip := bswap32 pkt.dst_addr, port := bswap16 pkt.dest }
    match mapLookup st.BACKENDS backend_key with
    | none => (st, IngressVerdict.pass)
    | some backend_list =>
      match mapLookup st.GATEWAY_INDEXES backend_key with
      | none => (st, IngressVerdict.pass)
      | some backend_index =>
        -- this check asserts that we don't use a "zero-value" Backend
        if backend_list.backends_len ≤ backend_index then (st, IngressVerdict.pass)
        -- verifier-mandated bound check against the array capacity
        else if BACKENDS_ARRAY_CAPACITY ≤ backend_index then (st, IngressVerdict.pass)
        else
          let backend := backend_list.backends backend_index
          -- move the index to the next backend in our list
          let next :=
            if backend_list.backends_len ≤ backend_index + 1 then 0
            else backend_index + 1
          let r := tcp_ingress_tail pkt client_key backend backend_key
            (some TCPState.default) true st.LB_CONNECTIONS
          ({ st with
              GATEWAY_INDEXES := mapUpsert st.GATEWAY_INDEXES backend_key next,
              LB_CONNECTIONS := r.1 }, r.2)

/-! ## Egress TCP classifier (`ebpf/src/egress/tcp.rs`) -/

/-- The observable outcome of `handle_tcp_egress`.  `snat` records the
source address/port bytes written into the frame (wire order) whenever a
tracked mapping was found — in the source the header stores happen before
the RST/state-machine step, so they take effect even when a later map
operation fails.  `failed` is set when a map remove propagated an error
through `?`. -/
structure EgressOutcome where
  state : LbState
  snat : Option (Nat × Nat)
  failed : Bool

/-- The body of `handle_tcp_egress` past the mapping lookup: RST removal,
then `update_tcp_conns`.  Only `LB_CONNECTIONS` is touched. -/
def tcp_egress_tail (pkt : TcpPacket) (client_key : ClientKey)
    (lb_mapping : LoadBalancerMapping)
    (conns : List (ClientKey × LoadBalancerMapping)) :
    List (ClientKey × LoadBalancerMapping) × Bool :=
  let step1 : Except MapErr (List (ClientKey × LoadBalancerMapping)) :=
    if pkt.rst then mapRemove conns client_key else Except.ok conns
  exceptFold step1 (fun _ => (conns, true)) (fun conns1 =>
    exceptFold (update_tcp_conns pkt.fin pkt.ack client_key lb_mapping conns1)
      (fun _ => (conns1, true)) (fun r => (r.1, false)))

/-- `handle_tcp_egress` from `egress/tcp.rs`: for an outbound frame whose
(destination address, destination port) identifies a tracked client, SNAT
the source back to `backend_key.ip` / `backend_key.port`, then handle RST
teardown and advance the state machine. -/
def handle_tcp_egress (st : LbState) (pkt : TcpPacket) : EgressOutcome :=
  let client_key : ClientKey :=
    { ip := bswap32 pkt.dst_addr, port := bswap16 pkt.dest }
  match mapLookup st.LB_CONNECTIONS client_key with
  | none => { state := st, snat := none, failed := false }
  | some lb_mapping =>
    -- SNAT the ip address: `(*ip_hdr).src_addr = backend_key.ip.to_be()`;
    -- SNAT the port: `(*tcp_hdr).source = u16::from_be(backend_key.port as u16)`
    -- (`from_be` and `to_be` are the same byte swap on the little-endian
    -- target); the csum-replace helpers are modelled as succeeding.
    let new_src_addr := bswap32 lb_mapping.backend_key.ip
    let new_source := bswap16 (lb_mapping.backend_key.port % 65536)
    let r := tcp_egress_tail pkt client_key lb_mapping st.LB_CONNECTIONS
    { state := { st with LB_CONNECTIONS := r.1 },
      snat := some (new_src_addr, new_source), failed := r.2 }

/-! ## Configuration RPC service (`api-server/src/server.rs`)

The gRPC request/response surface: `Vip`, `Target`, `Targets` and the
status codes the handlers produce.  The routing helper
`if_index_for_routing_ip` (`netutils.rs`, a netlink route lookup) is an
environment oracle, modelled as a parameter `resolver : Nat → Option Nat`. -/

/-- `Vip` message: `ip : u32`, `port : u32`, host order. -/
structure Vip where
  ip : Nat
  port : Nat
deriving DecidableEq

/-- `Target` message: `daddr : u32`, `dport : u32`, `optional ifindex : u32`. -/
structure Target where
  daddr : Nat
  dport : Nat
  ifindex : Option Nat
deriving DecidableEq

/-- `Targets` message: an optional `Vip` plus the target list. -/
structure Targets where
  vip : Option Vip
  targets : List Target

/-- The gRPC status of a `Backends` handler response. -/
inductive GrpcStatus where
  | ok
  | invalidArgument
  | resourceExhausted
  | internal
deriving DecidableEq

/-- The interface index used for a target: the request's `ifindex` when
present, otherwise the result of `if_index_for_routing_ip(daddr)`. -/
def resolved_ifindex (resolver : Nat → Option Nat) (t : Target) : Option Nat :=
  match t.ifindex with
  | some ifindex => some ifindex
  | none => resolver t.daddr

/-- The target loop of `Backends::update`: builds the backend array slot by
slot (the accumulator length plays the role of `count`); a target with an
unresolvable interface index fails with `internal`; a target arriving when
`count` has reached `BACKENDS_ARRAY_CAPACITY` fails with
`resourceExhausted`.  The `ifindex as u16` cast truncates to 16 bits. -/
def update_build_backends (resolver : Nat → Option Nat) :
    List Target → List Backend → Except GrpcStatus (List Backend)
  | [], backends => Except.ok backends
  | t :: rest, backends =>
    match resolved_ifindex resolver t with
    | none => Except.error GrpcStatus.internal
    | some ifindex =>
      if backends.length < BACKENDS_ARRAY_CAPACITY then
        update_build_backends resolver rest
          (backends ++ [Backend.mk t.daddr t.dport (ifindex % 65536)])
      else
        Except.error GrpcStatus.resourceExhausted

/-- `BackendService::insert_and_reset_index`: upsert the `BACKENDS` entry,
then reset the `GATEWAY_INDEXES` cursor to 0. -/
def insert_and_reset_index (st : LbState) (key : BackendKey)
    (bks : BackendList) : LbState :=
  { st with
    BACKENDS := mapUpsert st.BACKENDS key bks,
    GATEWAY_INDEXES := mapUpsert st.GATEWAY_INDEXES key 0 }

/-- `Backends::update`: reject a missing `vip`; build the backend array
(failing with `internal` on an unresolvable target or `resourceExhausted`
past 128 targets, in both cases before touching any map); then publish the
`BackendList` whose `backends_len` is the number of stored targets and reset
the cursor. -/
def Backends.update (resolver : Nat → Option Nat) (st : LbState)
    (targets : Targets) : LbState × GrpcStatus :=
  match targets.vip with
  | none => (st, GrpcStatus.invalidArgument)
  | some vip =>
    let key : BackendKey := { ip := vip.ip, port := vip.port }
    exceptFold (update_build_backends resolver targets.targets [])
      (fun s => (st, s)) (fun built =>
      let backend_list : BackendList :=
        { backends := fun j => built.getD j Backend.default,
          backends_len := built.length }
      (insert_and_reset_index st key backend_list, GrpcStatus.ok))

/-- The purge loop of `BackendService::remove`: iterate over
`LB_CONNECTIONS` and remove every mapping whose `backend_key` equals the
deleted VIP's key (each removal hits a present key, so none can fail). -/
def purge_conns (conns : List (ClientKey × LoadBalancerMapping))
    (key : BackendKey) : List (ClientKey × LoadBalancerMapping) :=
  match conns with
  | [] => []
  | e :: rest =>
    if e.2.backend_key = key then purge_conns rest key
    else e :: purge_conns rest key

/-- `BackendService::remove`: remove the `BACKENDS` entry, then the
`GATEWAY_INDEXES` entry, then purge orphaned `LB_CONNECTIONS` mappings.
Each `?` propagates the first failure, keeping the effects applied so far;
the second component reports that failure when there is one. -/
def BackendService.remove (st : LbState) (key : BackendKey) :
    LbState × Option MapErr :=
  exceptFold (mapRemove st.BACKENDS key) (fun e => (st, some e)) (fun b =>
    exceptFold (mapRemove st.GATEWAY_INDEXES key)
      (fun e => ({ st with BACKENDS := b }, some e)) (fun g =>
      ({ BACKENDS := b, GATEWAY_INDEXES := g,
         LB_CONNECTIONS := purge_conns st.LB_CONNECTIONS key }, none)))

/-- `Backends::delete`: build the key from the `Vip` and call `remove`; a
missing-key failure (`syscall failed with code -1`) is reported as success,
so deletion is idempotent. -/
def Backends.delete (st : LbState) (vip : Vip) : LbState × GrpcStatus :=
  let key : BackendKey := { ip := vip.ip, port := vip.port }
  match BackendService.remove st key with
  | (st1, none) => (st1, GrpcStatus.ok)
  | (st1, some MapErr.notFound) => (st1, GrpcStatus.ok)

/-! ## Classifier entry point (`ebpf/src/main.rs`)

The `main.rs` present in the tree is a UDP-only classifier: `try_tc_ingress`
passes non-IPv4 and non-UDP frames through, rewrites UDP frames destined to
a known VIP and returns the `bpf_redirect_neigh` verdict — which `tc_ingress`
then computes and discards, returning `TC_ACT_OK` unconditionally. -/

/-- An Ethernet/IPv4 frame as `try_tc_ingress` reads it: the Ethernet
`h_proto` (wire order), the IPv4 `protocol`, and the IPv4 destination /
UDP destination port (wire order). -/
structure IngressFrame where
  h_proto : Nat
  protocol : Nat
  daddr : Nat
  dest : Nat

def TC_ACT_OK : Int := 0
def TC_ACT_SHOT : Int := 2
def TC_ACT_PIPE : Int := 3

def ETH_P_IP : Nat := 0x0800
def IPPROTO_UDP : Nat := 17

/-- What `try_tc_ingress` does with a frame: the action it returns on the
`Ok` path (`TC_ACT_PIPE` for non-IPv4 / non-UDP, the redirect verdict for a
rewritten frame), or the `Err(TC_ACT_OK)` raised by
`get_backend(key).ok_or(TC_ACT_OK)?` when the VIP is unknown.
`bpf_redirect_neigh` is the opaque parameter `redirect`, applied to the
backend's interface index. -/
def try_tc_ingress (redirect : Nat → Int)
    (BACKENDS : List (BackendKey × Backend)) (frame : IngressFrame) :
    Except Int Int :=
  if bswap16 frame.h_proto ≠ ETH_P_IP then Except.ok TC_ACT_PIPE
  else if frame.protocol ≠ IPPROTO_UDP then Except.ok TC_ACT_PIPE
  else
    let key : BackendKey :=
      { ip := bswap32 frame.daddr, port := bswap16 frame.dest }
    match mapLookup BACKENDS key with
    | none => Except.error TC_ACT_OK
    | some backend =>
      -- destination IP/port rewritten, IPv4 checksum recomputed, UDP
      -- checksum cleared; then redirect to the backend's interface
      Except.ok (redirect backend.ifindex)

/-- `tc_ingress` from `main.rs`: the `match` over `try_tc_ingress` computes
a verdict (`Err(_) => TC_ACT_SHOT`) that the trailing semicolon throws away;
the function then returns `TC_ACT_OK` whatever happened. -/
def tc_ingress (redirect : Nat → Int)
    (BACKENDS : List (BackendKey × Backend)) (frame : IngressFrame) : Int :=
  let _discarded : Int :=
    match try_tc_ingress redirect BACKENDS frame with
    | Except.ok ret => ret
    | Except.error _ => TC_ACT_SHOT
  TC_ACT_OK

/-! ## The §4.4 transition table, read with exclusive flag classes

The table of §4.4 has columns `FIN`, `FIN+ACK`, `ACK`, `Otherwise`.  Since
the `FinWait1` row sends `FIN` and `FIN+ACK` to different states, the
columns denote exclusive classes of the header flags: `FIN` means FIN set
and ACK clear, `ACK` means ACK set and FIN clear. -/

/-- The exclusive flag class of a header. -/
inductive FlagClass where
  | finOnly
  | finAck
  | ackOnly
  | other
deriving DecidableEq

/-- Classify the FIN/ACK bits of a header into its exclusive class. -/
def flagClass (fin ack : Bool) : FlagClass :=
  if fin && ack then FlagClass.finAck
  else if fin then FlagClass.finOnly
  else if ack then FlagClass.ackOnly
  else FlagClass.other

/-- The transition table exactly as the claim states it: a cell not listed
in the table keeps the current state. -/
def claimed_transition (fin ack : Bool) (state : TCPState) : TCPState :=
  match state, flagClass fin ack with
  | TCPState.Established, FlagClass.finOnly => TCPState.FinWait1
  | TCPState.FinWait1, FlagClass.finOnly => TCPState.Closing
  | TCPState.FinWait1, FlagClass.finAck => TCPState.TimeWait
  | TCPState.FinWait1, FlagClass.ackOnly => TCPState.FinWait2
  | TCPState.FinWait2, FlagClass.ackOnly => TCPState.TimeWait
  | TCPState.Closing, FlagClass.ackOnly => TCPState.TimeWait
  | TCPState.TimeWait, FlagClass.ackOnly => TCPState.Closed
  | s, _ => s

/-- The transition table the code implements: as the claimed table, except
that in `Established` the ACK bit is irrelevant (a FIN+ACK header also moves
to `FinWait1`), and in `FinWait2`, `Closing` and `TimeWait` the FIN bit is
irrelevant (a FIN+ACK header also triggers the ACK transition). -/
def amended_transition (fin ack : Bool) (state : TCPState) : TCPState :=
  match state, flagClass fin ack with
  | TCPState.Established, FlagClass.finOnly => TCPState.FinWait1
  | TCPState.Established, FlagClass.finAck => TCPState.FinWait1
  | TCPState.FinWait1, FlagClass.finOnly => TCPState.Closing
  | TCPState.FinWait1, FlagClass.finAck => TCPState.TimeWait
  | TCPState.FinWait1, FlagClass.ackOnly => TCPState.FinWait2
  | TCPState.FinWait2, FlagClass.ackOnly => TCPState.TimeWait
  | TCPState.FinWait2, FlagClass.finAck => TCPState.TimeWait
  | TCPState.Closing, FlagClass.ackOnly => TCPState.TimeWait
  | TCPState.Closing, FlagClass.finAck => TCPState.TimeWait
  | TCPState.TimeWait, FlagClass.ackOnly => TCPState.Closed
  | TCPState.TimeWait, FlagClass.finAck => TCPState.Closed
  | s, _ => s

/-! ## Statement helpers -/

/-- The verdict produced by a round-robin dispatch at cursor position `i`:
redirect to `backends[i]`, destination rewritten to its address/port. -/
def rr_redirect (list : BackendList) (i : Nat) : IngressVerdict :=
  IngressVerdict.redirect (list.backends i) (bswap32 (list.backends i).daddr)
    (bswap16 ((list.backends i).dport % 65536))

/-- Run a sequence of fresh TCP connections through `handle_tcp_ingress`:
one packet per client, each client given by its wire-order
(source address, source port) pair, all packets aimed at the same
wire-order destination and carrying no RST.  Collects the verdicts. -/
def dispatch_new_conns (dst_addr dest : Nat) (fin ack : Bool) :
    LbState → List (Nat × Nat) → List IngressVerdict × LbState
  | st, [] => ([], st)
  | st, c :: rest =>
    let r := handle_tcp_ingress st
      { src_addr := c.1, dst_addr := dst_addr, source := c.2, dest := dest,
        fin := fin, ack := ack, rst := false }
    let rr := dispatch_new_conns dst_addr dest fin ack r.1 rest
    (r.2 :: rr.1, rr.2)

/-- The corner in which the tracked-connection fast path aborts: the packet
carries RST (so the entry is removed first) and the state machine then steps
the stored state to `Closed`, making `update_tcp_conns` remove the
already-removed key and fail. -/
def rst_close_abort (pkt : TcpPacket) (val : LoadBalancerMapping) : Prop :=
  pkt.rst = true ∧ ∃ s, val.tcp_state = some s ∧
    (process_tcp_state_transition pkt.fin pkt.ack s).1 = TCPState.Closed

/-! ## Concrete example values (used by counterexamples and witnesses);
addresses and ports follow the literal scenarios of §8 of the spec. -/

/-- Backend 10.0.1.1:8080 on interface 1. -/
def ex_backend : Backend := { daddr := 167772417, dport := 8080, ifindex := 1 }

/-- Backend 10.0.1.2:8080 on interface 2. -/
def ex_backend2 : Backend := { daddr := 167772418, dport := 8080, ifindex := 2 }

/-- A two-entry backend list. -/
def ex_list : BackendList :=
  { backends := fun j => if j = 0 then ex_backend else
      if j = 1 then ex_backend2 else Backend.default,
    backends_len := 2 }

/-- The VIP 10.0.0.1:80. -/
def ex_vipkey : BackendKey := { ip := 167772161, port := 80 }

/-- The empty map state. -/
def ex_empty : LbState :=
  { BACKENDS := [], GATEWAY_INDEXES := [], LB_CONNECTIONS := [] }

/-- A state with the VIP published and cursor 0, no tracked connections. -/
def c1w_state : LbState :=
  { BACKENDS := [(ex_vipkey, ex_list)], GATEWAY_INDEXES := [(ex_vipkey, 0)],
    LB_CONNECTIONS := [] }

/-- A SYN from client 192.168.0.2:40000 to the VIP (wire order fields). -/
def c1w_pkt : TcpPacket :=
  { src_addr := bswap32 3232235522, dst_addr := bswap32 167772161,
    source := bswap16 40000, dest := bswap16 80,
    fin := false, ack := false, rst := false }

/-- A state with the VIP published but an out-of-bounds cursor (5 with a
two-entry list). -/
def c1w_state_oob : LbState :=
  { BACKENDS := [(ex_vipkey, ex_list)], GATEWAY_INDEXES := [(ex_vipkey, 5)],
    LB_CONNECTIONS := [] }

/-- Three distinct clients, as wire-order (source address, source port). -/
def c1w_clients : List (Nat × Nat) :=
  [(bswap32 3232235522, bswap16 40000), (bswap32 3232235523, bswap16 40001),
    (bswap32 3232235524, bswap16 40002)]

/-- A tracked connection of client 192.168.0.2:40000 in state `TimeWait`. -/
def c2ex_mapping : LoadBalancerMapping :=
  { backend := ex_backend, backend_key := ex_vipkey,
    tcp_state := some TCPState.TimeWait }

/-- A state tracking only `c2ex_mapping`. -/
def c2ex_state : LbState :=
  { BACKENDS := [], GATEWAY_INDEXES := [],
    LB_CONNECTIONS := [({ ip := 3232235522, port := 40000 }, c2ex_mapping)] }

/-- An RST+ACK segment from the tracked client. -/
def c2ex_pkt : TcpPacket :=
  { src_addr := bswap32 3232235522, dst_addr := bswap32 167772161,
    source := bswap16 40000, dest := bswap16 80,
    fin := false, ack := true, rst := true }

/-- A plain data segment (no FIN/ACK/RST) from the tracked client. -/
def c2w_pkt : TcpPacket :=
  { src_addr := bswap32 3232235522, dst_addr := bswap32 167772161,
    source := bswap16 40000, dest := bswap16 80,
    fin := false, ack := false, rst := false }

/-- A tracked connection of client 192.168.0.2:40000 in state `Established`. -/
def c4ex_mapping : LoadBalancerMapping :=
  { backend := ex_backend, backend_key := ex_vipkey,
    tcp_state := some TCPState.Established }

/-- A state tracking one egress-keyed connection: the egress handler forms
the ClientKey from the frame's destination (the original client). -/
def c4w_estate : LbState :=
  { BACKENDS := [], GATEWAY_INDEXES := [],
    LB_CONNECTIONS := [({ ip := 167772161, port := 80 }, c4ex_mapping)] }

/-- A state tracking only `c4ex_mapping`. -/
def c4ex_state : LbState :=
  { BACKENDS := [], GATEWAY_INDEXES := [],
    LB_CONNECTIONS := [({ ip := 3232235522, port := 40000 }, c4ex_mapping)] }

/-- An RST+FIN segment from the tracked client. -/
def c4ex_pkt : TcpPacket :=
  { src_addr := bswap32 3232235522, dst_addr := bswap32 167772161,
    source := bswap16 40000, dest := bswap16 80,
    fin := true, ack := false, rst := true }

/-- A pure RST segment (FIN and ACK clear) from the tracked client. -/
def c4w_pkt : TcpPacket :=
  { src_addr := bswap32 3232235522, dst_addr := bswap32 167772161,
    source := bswap16 40000, dest := bswap16 80,
    fin := false, ack := false, rst := true }

/-- The mirrored return frame of `c1w_pkt`: destination is the original
client, source is the backend. -/
def c5w_pkt : TcpPacket :=
  { src_addr := bswap32 167772417, dst_addr := bswap32 3232235522,
    source := bswap16 8080, dest := bswap16 40000,
    fin := false, ack := true, rst := false }

/-- A state with the VIP published, cursor 0 and one tracked flow of the
VIP, satisfying the data-model invariants of §3. -/
def c6w_state : LbState :=
  { BACKENDS := [(ex_vipkey, ex_list)], GATEWAY_INDEXES := [(ex_vipkey, 0)],
    LB_CONNECTIONS := [({ ip := 3232235522, port := 40000 },
      { backend := ex_backend, backend_key := ex_vipkey,
        tcp_state := some TCPState.Established })] }

/-- The VIP 10.0.0.1:80 as a request message. -/
def ex_vip : Vip := { ip := 167772161, port := 80 }

/-- A resolver oracle that cannot route anything. -/
def c7ex_resolver : Nat → Option Nat := fun _ => none

/-- An `Update` request with no `vip` and 129 targets. -/
def c7ex_targets : Targets :=
  { vip := none,
    targets := List.replicate 129 { daddr := 167772417, dport := 8080, ifindex := some 1 } }

/-- An `Update` request with a `vip` and 129 explicitly-indexed targets. -/
def c7w_targets : Targets :=
  { vip := some ex_vip,
    targets := List.replicate 129 { daddr := 167772417, dport := 8080, ifindex := some 1 } }

/-- An `Update` request with a `vip` and one target whose explicit interface
index (70000) exceeds 16 bits. -/
def c10w_targets : Targets :=
  { vip := some ex_vip,
    targets := [{ daddr := 167772417, dport := 8080, ifindex := some 70000 }] }

/-- A UDP frame to the VIP: IPv4 ethertype, UDP protocol, wire-order
destination fields. -/
def c8_frame : IngressFrame :=
  { h_proto := bswap16 2048, protocol := 17,
    daddr := bswap32 167772161, dest := bswap16 80 }

/-- The single-backend `BACKENDS` map of the old `main.rs`. -/
def c8_backends : List (BackendKey × Backend) := [(ex_vipkey, ex_backend)]

/-- A redirect primitive that reports `TC_ACT_REDIRECT` (7). -/
def c8_redirect : Nat → Int := fun _ => 7

/-! # Theorems -/

/-! ## Byte-swap lemmas -/

theorem bswap16_lt (n : Nat) : bswap16 n < 2 ^ 16 := by
  have h0 : n % 256 < 256 := Nat.mod_lt _ (by omega)
  have h1 : n / 256 % 256 < 256 := Nat.mod_lt _ (by omega)
  unfold bswap16; omega

theorem bswap32_lt (n : Nat) : bswap32 n < 2 ^ 32 := by
  have h0 : (n % 256) * 16777216 ≤ 255 * 16777216 :=
    Nat.mul_le_mul_right _ (Nat.le_of_lt_succ (Nat.mod_lt _ (by omega)))
  have h1 : (n / 256 % 256) * 65536 ≤ 255 * 65536 :=
    Nat.mul_le_mul_right _ (Nat.le_of_lt_succ (Nat.mod_lt _ (by omega)))
  have h2 : (n / 65536 % 256) * 256 ≤ 255 * 256 :=
    Nat.mul_le_mul_right _ (Nat.le_of_lt_succ (Nat.mod_lt _ (by omega)))
  have h3 : n / 16777216 % 256 ≤ 255 :=
    Nat.le_of_lt_succ (Nat.mod_lt _ (by omega))
  unfold bswap32; omega

theorem bswap16_digits (a b : Nat) (ha : a < 256) (hb : b < 256) :
    bswap16 (a * 256 + b) = b * 256 + a := by
  unfold bswap16; omega

theorem bswap16_bswap16 (n : Nat) (h : n < 2 ^ 16) : bswap16 (bswap16 n) = n := by
  have h1 : bswap16 n = (n % 256) * 256 + n / 256 % 256 := rfl
  rw [h1, bswap16_digits (n % 256) (n / 256 % 256) (Nat.mod_lt _ (by omega))
    (Nat.mod_lt _ (by omega))]
  omega

theorem bswap32_digits (a b c d : Nat) (ha : a < 256) (hb : b < 256)
    (hc : c < 256) (hd : d < 256) :
    bswap32 (a * 16777216 + b * 65536 + c * 256 + d) =
      d * 16777216 + c * 65536 + b * 256 + a := by
  unfold bswap32; omega

theorem bswap32_bswap32 (n : Nat) (h : n < 2 ^ 32) : bswap32 (bswap32 n) = n := by
  have h1 : bswap32 n = (n % 256) * 16777216 + (n / 256 % 256) * 65536 +
      (n / 65536 % 256) * 256 + n / 16777216 % 256 := rfl
  rw [h1, bswap32_digits (n % 256) (n / 256 % 256) (n / 65536 % 256)
    (n / 16777216 % 256) (Nat.mod_lt _ (by omega)) (Nat.mod_lt _ (by omega))
    (Nat.mod_lt _ (by omega)) (Nat.mod_lt _ (by omega))]
  have e1 : n / 256 / 256 = n / 65536 := by
    rw [Nat.div_div_eq_div_mul]
  have e2 : n / 65536 / 256 = n / 16777216 := by
    rw [Nat.div_div_eq_div_mul]
  omega

/-! ## Map lemmas -/

theorem mapLookup_upsert_self {α β : Type} [DecidableEq α]
    (m : List (α × β)) (k : α) (v : β) :
    mapLookup (mapUpsert m k v) k = some v := by
  induction m with
  | nil => simp [mapUpsert, mapLookup]
  | cons e rest ih =>
    by_cases h : e.1 = k
    · simp [mapUpsert, h, mapLookup]
    · simp [mapUpsert, h, mapLookup, ih]

theorem mapLookup_upsert_ne {α β : Type} [DecidableEq α]
    (m : List (α × β)) (k k' : α) (v : β) (h : k ≠ k') :
    mapLookup (mapUpsert m k v) k' = mapLookup m k' := by
  induction m with
  | nil => simp [mapUpsert, mapLookup, h]
  | cons e rest ih =>
    by_cases he : e.1 = k
    · simp [mapUpsert, he, mapLookup, h]
    · simp [mapUpsert, he, mapLookup, ih]

theorem mapLookup_erase_self {α β : Type} [DecidableEq α]
    (m : List (α × β)) (k : α) :
    mapLookup (mapErase m k) k = none := by
  induction m with
  | nil => simp [mapErase, mapLookup]
  | cons e rest ih =>
    by_cases h : e.1 = k
    · simp [mapErase, h, ih]
    · simp [mapErase, h, mapLookup, ih]

theorem mem_of_mapLookup {α β : Type} [DecidableEq α]
    {m : List (α × β)} {k : α} {v : β} (h : mapLookup m k = some v) :
    (k, v) ∈ m := by
  induction m with
  | nil => simp [mapLookup] at h
  | cons e rest ih =>
    obtain ⟨a, b⟩ := e
    by_cases he : a = k
    · simp [mapLookup, he] at h
      rw [← he, ← h]
      exact List.mem_cons_self _ _
    · simp [mapLookup, he] at h
      exact List.mem_cons_of_mem _ (ih h)

theorem mapRemove_present {α β : Type} [DecidableEq α]
    {m : List (α × β)} {k : α} {v : β} (h : mapLookup m k = some v) :
    mapRemove m k = Except.ok (mapErase m k) := by
  unfold mapRemove
  rw [h]
  rfl

theorem mapRemove_absent {α β : Type} [DecidableEq α]
    {m : List (α × β)} {k : α} (h : mapLookup m k = none) :
    mapRemove m k = Except.error MapErr.notFound := by
  unfold mapRemove
  rw [h]
  rfl

/-! ## `exceptFold` equations -/

theorem exceptFold_ok {ε α β : Type} (a : α) (err : ε → β) (f : α → β) :
    exceptFold (Except.ok a) err f = f a := rfl

theorem exceptFold_error {ε α β : Type} (x : ε) (err : ε → β) (f : α → β) :
    exceptFold (Except.error x) err f = err x := rfl

/-! ## `update_tcp_conns` equations -/

theorem update_tcp_conns_none (fin ack : Bool) (ck : ClientKey)
    (m : LoadBalancerMapping) (h : m.tcp_state = none)
    (conns : List (ClientKey × LoadBalancerMapping)) :
    update_tcp_conns fin ack ck m conns = Except.ok (conns, m) := by
  unfold update_tcp_conns
  rw [h]

theorem update_tcp_conns_some (fin ack : Bool) (ck : ClientKey)
    (m : LoadBalancerMapping) (s : TCPState) (h : m.tcp_state = some s)
    (conns : List (ClientKey × LoadBalancerMapping)) :
    update_tcp_conns fin ack ck m conns =
      (if (process_tcp_state_transition fin ack s).1 = TCPState.Closed then
        (mapRemove conns ck).map
          (fun c => (c, { m with tcp_state := some (process_tcp_state_transition fin ack s).1 }))
      else if (process_tcp_state_transition fin ack s).2 then
        Except.ok (mapUpsert conns ck
          { m with tcp_state := some (process_tcp_state_transition fin ack s).1 },
          { m with tcp_state := some (process_tcp_state_transition fin ack s).1 })
      else
        Except.ok (conns, { m with tcp_state := some (process_tcp_state_transition fin ack s).1 })) := by
  unfold update_tcp_conns
  rw [h]

/-! ## Ingress-handler lemmas -/

/-- One step from `Established` never reaches `Closed`. -/
theorem process_established_ne_closed :
    ∀ fin ack : Bool,
      (process_tcp_state_transition fin ack TCPState.Established).1 ≠ TCPState.Closed := by
  decide

/-- Structure eta for the mapping rebuilt field-by-field by the handlers. -/
theorem LoadBalancerMapping_eta (val : LoadBalancerMapping) :
    ({ backend := val.backend,
       backend_key := val.backend_key,
       tcp_state := val.tcp_state } : LoadBalancerMapping) = val := rfl

/-- On a tracked connection, `handle_tcp_ingress` runs the shared tail with
the stored backend, key and state, and only `LB_CONNECTIONS` changes. -/
theorem handle_tcp_ingress_tracked (st : LbState) (pkt : TcpPacket)
    (val : LoadBalancerMapping)
    (hc : mapLookup st.LB_CONNECTIONS
      { ip := bswap32 pkt.src_addr, port := bswap16 pkt.source } = some val) :
    handle_tcp_ingress st pkt =
      ({ st with LB_CONNECTIONS :=
          (tcp_ingress_tail pkt { ip := bswap32 pkt.src_addr, port := bswap16 pkt.source }
            val.backend val.backend_key val.tcp_state false st.LB_CONNECTIONS).1 },
        (tcp_ingress_tail pkt { ip := bswap32 pkt.src_addr, port := bswap16 pkt.source }
          val.backend val.backend_key val.tcp_state false st.LB_CONNECTIONS).2) := by
  unfold handle_tcp_ingress
  simp only [hc]

/-- Verdict of the shared tail on a tracked connection: `mapFailure` exactly
in the RST/`Closed` abort corner, otherwise a redirect to the stored
backend. -/
theorem tcp_ingress_tail_tracked_verdict (pkt : TcpPacket) (ck : ClientKey)
    (val : LoadBalancerMapping) (nc : Bool)
    (conns : List (ClientKey × LoadBalancerMapping))
    (h : mapLookup conns ck = some val) :
    (rst_close_abort pkt val →
      (tcp_ingress_tail pkt ck val.backend val.backend_key val.tcp_state nc conns).2 =
        IngressVerdict.mapFailure) ∧
    (¬ rst_close_abort pkt val →
      (tcp_ingress_tail pkt ck val.backend val.backend_key val.tcp_state nc conns).2 =
        IngressVerdict.redirect val.backend (bswap32 val.backend.daddr)
          (bswap16 (val.backend.dport % 65536))) := by
  unfold tcp_ingress_tail
  simp only [LoadBalancerMapping_eta]
  cases hrst : pkt.rst with
  | false =>
    rw [show (if false = true then mapRemove conns ck else Except.ok conns) =
      Except.ok conns from rfl]
    simp only [exceptFold_ok]
    rcases hts : val.tcp_state with _ | s
    · simp only [update_tcp_conns_none pkt.fin pkt.ack ck val hts, exceptFold_ok]
      exact ⟨fun habort => absurd habort.1 (by simp [hrst]),
        fun _ => by cases nc <;> rfl⟩
    · simp only [update_tcp_conns_some pkt.fin pkt.ack ck val s hts]
      by_cases hcl : (process_tcp_state_transition pkt.fin pkt.ack s).1 = TCPState.Closed
      · rw [if_pos hcl, mapRemove_present h]
        simp only [Except.map, exceptFold_ok]
        exact ⟨fun habort => absurd habort.1 (by simp [hrst]),
          fun _ => by cases nc <;> rfl⟩
      · rw [if_neg hcl]
        by_cases htr : (process_tcp_state_transition pkt.fin pkt.ack s).2 = true
        · rw [if_pos htr]
          simp only [exceptFold_ok]
          exact ⟨fun habort => absurd habort.1 (by simp [hrst]),
            fun _ => by cases nc <;> rfl⟩
        · rw [if_neg htr]
          simp only [exceptFold_ok]
          exact ⟨fun habort => absurd habort.1 (by simp [hrst]),
            fun _ => by cases nc <;> rfl⟩
  | true =>
    rw [show (if true = true then mapRemove conns ck else Except.ok conns) =
      mapRemove conns ck from rfl]
    rw [mapRemove_present h]
    simp only [exceptFold_ok]
    rcases hts : val.tcp_state with _ | s
    · simp only [update_tcp_conns_none pkt.fin pkt.ack ck val hts, exceptFold_ok]
      refine ⟨fun habort => ?_, fun _ => by cases nc <;> rfl⟩
      rcases habort with ⟨_, s2, hs2, _⟩
      rw [hts] at hs2
      cases hs2
    · simp only [update_tcp_conns_some pkt.fin pkt.ack ck val s hts]
      by_cases hcl : (process_tcp_state_transition pkt.fin pkt.ack s).1 = TCPState.Closed
      · rw [if_pos hcl, mapRemove_absent (mapLookup_erase_self conns ck)]
        simp only [Except.map, exceptFold_error]
        exact ⟨fun _ => trivial, fun hn => absurd ⟨hrst, s, hts, hcl⟩ hn⟩
      · rw [if_neg hcl]
        have hnab : ¬ rst_close_abort pkt val := by
          rintro ⟨_, s2, hs2, hcl2⟩
          rw [hts] at hs2
          injection hs2 with e
          rw [← e] at hcl2
          exact hcl hcl2
        by_cases htr : (process_tcp_state_transition pkt.fin pkt.ack s).2 = true
        · rw [if_pos htr]
          simp only [exceptFold_ok]
          exact ⟨fun habort => absurd habort hnab, fun _ => by cases nc <;> rfl⟩
        · rw [if_neg htr]
          simp only [exceptFold_ok]
          exact ⟨fun habort => absurd habort hnab, fun _ => by cases nc <;> rfl⟩

/-! ## State-machine lemmas and C3 -/

/-- Once `Closed`, every further header leaves the machine in `Closed`. -/
theorem runTcpStates_closed (hdrs : List (Bool × Bool)) :
    runTcpStates TCPState.Closed hdrs = TCPState.Closed := by
  induction hdrs with
  | nil => rfl
  | cons h rest ih => simpa [runTcpStates, process_tcp_state_transition] using ih

/-- C3, counterexample.  In state `Established`, a header with both FIN and
ACK set moves the code's state machine to `FinWait1`, while the table of
§4.4 as the claim states it (no `Established`/`FIN+ACK` cell) keeps the
state at `Established`. -/
theorem c3_counterexample :
    process_tcp_state_transition true true TCPState.Established =
      (TCPState.FinWait1, true) ∧
    claimed_transition true true TCPState.Established = TCPState.Established ∧
    (process_tcp_state_transition true true TCPState.Established).1 ≠
      claimed_transition true true TCPState.Established := by
  decide

/-- C3, amended.  `process_tcp_state_transition` is a pure function of
(state, FIN/ACK bits); its transitions are the §4.4 table amended so that
the ACK bit is irrelevant in `Established` and the FIN bit is irrelevant in
`FinWait2`, `Closing` and `TimeWait`; the reported flag is true exactly when
the state changed; and `Closed` is absorbing for every header sequence. -/
theorem c3_state_machine :
    (∀ (fin ack : Bool) (s : TCPState),
      (process_tcp_state_transition fin ack s).1 = amended_transition fin ack s ∧
      ((process_tcp_state_transition fin ack s).2 = true ↔
        (process_tcp_state_transition fin ack s).1 ≠ s)) ∧
    (∀ hdrs : List (Bool × Bool),
      runTcpStates TCPState.Closed hdrs = TCPState.Closed) := by
  exact ⟨by decide, runTcpStates_closed⟩

/-! ## New-connection lemmas -/

/-- The checked cursor advance equals `(i + 1) mod len`. -/
theorem next_cursor_mod (i k : Nat) (h : i < k) :
    (if k ≤ i + 1 then 0 else i + 1) = (i + 1) % k := by
  by_cases h2 : k ≤ i + 1
  · rw [if_pos h2]
    have e : i + 1 = k := by omega
    rw [e, Nat.mod_self]
  · rw [if_neg h2, Nat.mod_eq_of_lt (by omega)]

/-- On a fresh connection with a published VIP and an in-bounds cursor,
`handle_tcp_ingress` advances the cursor and runs the shared tail as a new
connection with default state. -/
theorem handle_tcp_ingress_new (st : LbState) (pkt : TcpPacket)
    (list : BackendList) (i : Nat)
    (hc : mapLookup st.LB_CONNECTIONS
      { ip := bswap32 pkt.src_addr, port := bswap16 pkt.source } = none)
    (hb : mapLookup st.BACKENDS
      { ip := bswap32 pkt.dst_addr, port := bswap16 pkt.dest } = some list)
    (hg : mapLookup st.GATEWAY_INDEXES
      { ip := bswap32 pkt.dst_addr, port := bswap16 pkt.dest } = some i)
    (hlen : i < list.backends_len) (hcap : i < BACKENDS_ARRAY_CAPACITY) :
    handle_tcp_ingress st pkt =
      ({ st with
          GATEWAY_INDEXES := mapUpsert st.GATEWAY_INDEXES
            { ip := bswap32 pkt.dst_addr, port := bswap16 pkt.dest }
            (if list.backends_len ≤ i + 1 then 0 else i + 1),
          LB_CONNECTIONS :=
            (tcp_ingress_tail pkt
              { ip := bswap32 pkt.src_addr, port := bswap16 pkt.source }
              (list.backends i)
              { ip := bswap32 pkt.dst_addr, port := bswap16 pkt.dest }
              (some TCPState.Established) true st.LB_CONNECTIONS).1 },
        (tcp_ingress_tail pkt
          { ip := bswap32 pkt.src_addr, port := bswap16 pkt.source }
          (list.backends i)
          { ip := bswap32 pkt.dst_addr, port := bswap16 pkt.dest }
          (some TCPState.Established) true st.LB_CONNECTIONS).2) := by
  unfold handle_tcp_ingress
  simp only [hc, hb, hg, TCPState.default]
  rw [if_neg (Nat.not_le.mpr hlen), if_neg (Nat.not_le.mpr hcap)]

/-- The shared tail on a fresh connection (default state, no RST): the
mutated mapping is inserted and the verdict is the redirect to the chosen
backend. -/
theorem tcp_ingress_tail_new (pkt : TcpPacket) (ck : ClientKey)
    (b : Backend) (bk : BackendKey)
    (conns : List (ClientKey × LoadBalancerMapping)) (hrst : pkt.rst = false) :
    tcp_ingress_tail pkt ck b bk (some TCPState.Established) true conns =
      (mapUpsert
        (if (process_tcp_state_transition pkt.fin pkt.ack TCPState.Established).2 = true
          then mapUpsert conns ck
            { backend := b, backend_key := bk,
              tcp_state := some (process_tcp_state_transition pkt.fin pkt.ack TCPState.Established).1 }
          else conns) ck
        { backend := b, backend_key := bk,
          tcp_state := some (process_tcp_state_transition pkt.fin pkt.ack TCPState.Established).1 },
        IngressVerdict.redirect b (bswap32 b.daddr) (bswap16 (b.dport % 65536))) := by
  unfold tcp_ingress_tail
  rw [hrst]
  rw [show (if false = true then mapRemove conns ck else Except.ok conns) =
    Except.ok conns from rfl]
  simp only [exceptFold_ok]
  have hu := update_tcp_conns_some pkt.fin pkt.ack ck
    { backend := b, backend_key := bk, tcp_state := some TCPState.Established }
    TCPState.Established rfl
  simp only [hu]
  rw [if_neg (process_established_ne_closed pkt.fin pkt.ack)]
  by_cases htr : (process_tcp_state_transition pkt.fin pkt.ack TCPState.Established).2 = true
  · rw [if_pos htr, if_pos htr]
    simp only [exceptFold_ok, if_true]
  · rw [if_neg htr, if_neg htr]
    simp only [exceptFold_ok, if_true]

/-- Round-robin dispatch of a sequence of fresh clients: the verdicts are
the cyclic walk of the backend list starting at the current cursor, and the
cursor ends at `(start + N) mod len`. -/
theorem dispatch_new_conns_spec (dst_addr dest : Nat) (fin ack : Bool)
    (list : BackendList) (hk128 : list.backends_len ≤ BACKENDS_ARRAY_CAPACITY) :
    ∀ (clients : List (Nat × Nat)) (st : LbState) (i : Nat),
      mapLookup st.BACKENDS { ip := bswap32 dst_addr, port := bswap16 dest } = some list →
      mapLookup st.GATEWAY_INDEXES { ip := bswap32 dst_addr, port := bswap16 dest } = some i →
      i < list.backends_len →
      (∀ c ∈ clients, mapLookup st.LB_CONNECTIONS
        { ip := bswap32 c.1, port := bswap16 c.2 } = none) →
      List.Pairwise (fun c d => ({ ip := bswap32 c.1, port := bswap16 c.2 } : ClientKey) ≠
        { ip := bswap32 d.1, port := bswap16 d.2 }) clients →
      (dispatch_new_conns dst_addr dest fin ack st clients).1 =
        (List.range clients.length).map
          (fun j => rr_redirect list ((i + j) % list.backends_len)) ∧
      mapLookup ((dispatch_new_conns dst_addr dest fin ack st clients).2).GATEWAY_INDEXES
        { ip := bswap32 dst_addr, port := bswap16 dest } =
        some ((i + clients.length) % list.backends_len) := by
  intro clients
  induction clients with
  | nil =>
    intro st i hb hg hi hnone hdisj
    refine ⟨rfl, ?_⟩
    simpa [dispatch_new_conns, Nat.mod_eq_of_lt hi] using hg
  | cons c cs ih =>
    intro st i hb hg hi hnone hdisj
    have hhead : ∀ d ∈ cs, ({ ip := bswap32 c.1, port := bswap16 c.2 } : ClientKey) ≠
        { ip := bswap32 d.1, port := bswap16 d.2 } := (List.pairwise_cons.mp hdisj).1
    have hdisj2 := (List.pairwise_cons.mp hdisj).2
    have hc0 : mapLookup st.LB_CONNECTIONS
        { ip := bswap32 c.1, port := bswap16 c.2 } = none :=
      hnone c (List.mem_cons_self _ _)
    have hstep := handle_tcp_ingress_new st
      { src_addr := c.1, dst_addr := dst_addr, source := c.2, dest := dest,
        fin := fin, ack := ack, rst := false }
      list i hc0 hb hg hi (lt_of_lt_of_le hi hk128)
    have htail := tcp_ingress_tail_new
      { src_addr := c.1, dst_addr := dst_addr, source := c.2, dest := dest,
        fin := fin, ack := ack, rst := false }
      { ip := bswap32 c.1, port := bswap16 c.2 }
      (list.backends i) { ip := bswap32 dst_addr, port := bswap16 dest }
      st.LB_CONNECTIONS rfl
    rw [htail] at hstep
    dsimp only at hstep
    have hv : (handle_tcp_ingress st
        { src_addr := c.1, dst_addr := dst_addr, source := c.2, dest := dest,
          fin := fin, ack := ack, rst := false }).2 =
        rr_redirect list i := by
      rw [hstep]
      rfl
    have hb2 : mapLookup ((handle_tcp_ingress st
        { src_addr := c.1, dst_addr := dst_addr, source := c.2, dest := dest,
          fin := fin, ack := ack, rst := false }).1).BACKENDS
        { ip := bswap32 dst_addr, port := bswap16 dest } = some list := by
      rw [hstep]
      exact hb
    have hg2 : mapLookup ((handle_tcp_ingress st
        { src_addr := c.1, dst_addr := dst_addr, source := c.2, dest := dest,
          fin := fin, ack := ack, rst := false }).1).GATEWAY_INDEXES
        { ip := bswap32 dst_addr, port := bswap16 dest } =
        some ((i + 1) % list.backends_len) := by
      rw [hstep]
      dsimp only
      rw [mapLookup_upsert_self, next_cursor_mod i _ hi]
    have hi2 : (i + 1) % list.backends_len < list.backends_len :=
      Nat.mod_lt _ (by omega)
    have hnone2 : ∀ d ∈ cs, mapLookup ((handle_tcp_ingress st
        { src_addr := c.1, dst_addr := dst_addr, source := c.2, dest := dest,
          fin := fin, ack := ack, rst := false }).1).LB_CONNECTIONS
        { ip := bswap32 d.1, port := bswap16 d.2 } = none := by
      intro d hd
      rw [hstep]
      dsimp only
      rw [mapLookup_upsert_ne _ _ _ _ (hhead d hd)]
      by_cases htr : (process_tcp_state_transition fin ack TCPState.Established).2 = true
      · rw [if_pos htr, mapLookup_upsert_ne _ _ _ _ (hhead d hd)]
        exact hnone d (List.mem_cons_of_mem _ hd)
      · rw [if_neg htr]
        exact hnone d (List.mem_cons_of_mem _ hd)
    obtain ⟨ihv, ihg⟩ := ih (handle_tcp_ingress st
        { src_addr := c.1, dst_addr := dst_addr, source := c.2, dest := dest,
          fin := fin, ack := ack, rst := false }).1
      ((i + 1) % list.backends_len) hb2 hg2 hi2 hnone2 hdisj2
    simp only [dispatch_new_conns]
    constructor
    · rw [hv, ihv, List.length_cons, List.range_succ_eq_map, List.map_cons,
        List.map_map]
      congr 1
      · rw [Nat.add_zero, Nat.mod_eq_of_lt hi]
      · apply List.map_congr_left
        intro j hj
        simp only [Function.comp]
        rw [Nat.mod_add_mod]
        congr 2
        omega
    · rw [ihg]
      congr 1
      rw [Nat.mod_add_mod, List.length_cons]
      congr 1
      omega

/-! ## C1: round-robin dispatch -/

/-- C1.  For a new TCP connection (no `LB_CONNECTIONS` entry): (a) with
cursor `i` read from `GATEWAY_INDEXES`, if `i ≥ backends_len` or
`i ≥ 128` the frame passes through with no rewrite and no state change;
(b) otherwise the chosen backend is `backends[i]` and the cursor is written
back as `(i + 1) mod backends_len`; (c) so across `N` consecutive new
connections to the same VIP with a list of length `k ≤ 128`, the chosen
backends form the cyclic sequence `(start, start + 1, …) mod k`. -/
theorem c1_round_robin :
    (∀ (st : LbState) (pkt : TcpPacket) (list : BackendList) (i : Nat),
      mapLookup st.LB_CONNECTIONS
        { ip := bswap32 pkt.src_addr, port := bswap16 pkt.source } = none →
      mapLookup st.BACKENDS
        { ip := bswap32 pkt.dst_addr, port := bswap16 pkt.dest } = some list →
      mapLookup st.GATEWAY_INDEXES
        { ip := bswap32 pkt.dst_addr, port := bswap16 pkt.dest } = some i →
      (list.backends_len ≤ i ∨ BACKENDS_ARRAY_CAPACITY ≤ i) →
      handle_tcp_ingress st pkt = (st, IngressVerdict.pass)) ∧
    (∀ (st : LbState) (pkt : TcpPacket) (list : BackendList) (i : Nat),
      mapLookup st.LB_CONNECTIONS
        { ip := bswap32 pkt.src_addr, port := bswap16 pkt.source } = none →
      mapLookup st.BACKENDS
        { ip := bswap32 pkt.dst_addr, port := bswap16 pkt.dest } = some list →
      mapLookup st.GATEWAY_INDEXES
        { ip := bswap32 pkt.dst_addr, port := bswap16 pkt.dest } = some i →
      i < list.backends_len → i < BACKENDS_ARRAY_CAPACITY → pkt.rst = false →
      (handle_tcp_ingress st pkt).2 = rr_redirect list i ∧
      mapLookup ((handle_tcp_ingress st pkt).1).GATEWAY_INDEXES
        { ip := bswap32 pkt.dst_addr, port := bswap16 pkt.dest } =
        some ((i + 1) % list.backends_len)) ∧
    (∀ (dst_addr dest : Nat) (fin ack : Bool) (list : BackendList)
      (start : Nat) (clients : List (Nat × Nat)) (st : LbState),
      list.backends_len ≤ BACKENDS_ARRAY_CAPACITY →
      mapLookup st.BACKENDS
        { ip := bswap32 dst_addr, port := bswap16 dest } = some list →
      mapLookup st.GATEWAY_INDEXES
        { ip := bswap32 dst_addr, port := bswap16 dest } = some start →
      start < list.backends_len →
      (∀ c ∈ clients, mapLookup st.LB_CONNECTIONS
        { ip := bswap32 c.1, port := bswap16 c.2 } = none) →
      List.Pairwise (fun c d => ({ ip := bswap32 c.1, port := bswap16 c.2 } : ClientKey) ≠
        { ip := bswap32 d.1, port := bswap16 d.2 }) clients →
      (dispatch_new_conns dst_addr dest fin ack st clients).1 =
        (List.range clients.length).map
          (fun j => rr_redirect list ((start + j) % list.backends_len))) := by
  refine ⟨?_, ?_, ?_⟩
  · intro st pkt list i hc hb hg hbound
    unfold handle_tcp_ingress
    simp only [hc, hb, hg]
    by_cases h1 : list.backends_len ≤ i
    · rw [if_pos h1]
    · have h2 : BACKENDS_ARRAY_CAPACITY ≤ i := hbound.resolve_left h1
      rw [if_neg h1, if_pos h2]
  · intro st pkt list i hc hb hg hlen hcap hrst
    have hstep := handle_tcp_ingress_new st pkt list i hc hb hg hlen hcap
    have htail := tcp_ingress_tail_new pkt
      { ip := bswap32 pkt.src_addr, port := bswap16 pkt.source }
      (list.backends i) { ip := bswap32 pkt.dst_addr, port := bswap16 pkt.dest }
      st.LB_CONNECTIONS hrst
    rw [htail] at hstep
    constructor
    · rw [hstep]
      rfl
    · rw [hstep]
      dsimp only
      rw [mapLookup_upsert_self, next_cursor_mod i _ hlen]
  · intro dst_addr dest fin ack list start clients st hk128 hb hg hstart hnone hdisj
    exact (dispatch_new_conns_spec dst_addr dest fin ack list hk128 clients st
      start hb hg hstart hnone hdisj).1

/-- C1, witness: with the two-backend VIP of scenario S1 published and
cursor 0, an out-of-bounds cursor passes through; a fresh SYN is redirected
to backend 0 and the cursor becomes 1; three fresh connections are
dispatched to backends 0, 1, 0. -/
theorem c1_round_robin_witness :
    handle_tcp_ingress c1w_state_oob c1w_pkt = (c1w_state_oob, IngressVerdict.pass) ∧
    (handle_tcp_ingress c1w_state c1w_pkt).2 = rr_redirect ex_list 0 ∧
    mapLookup ((handle_tcp_ingress c1w_state c1w_pkt).1).GATEWAY_INDEXES
      { ip := bswap32 c1w_pkt.dst_addr, port := bswap16 c1w_pkt.dest } =
      some ((0 + 1) % ex_list.backends_len) ∧
    (dispatch_new_conns (bswap32 167772161) (bswap16 80) false false
      c1w_state c1w_clients).1 =
      (List.range c1w_clients.length).map
        (fun j => rr_redirect ex_list ((0 + j) % ex_list.backends_len)) :=
  ⟨c1_round_robin.1 c1w_state_oob c1w_pkt ex_list 5 rfl rfl rfl
      (Or.inl (by decide)),
    (c1_round_robin.2.1 c1w_state c1w_pkt ex_list 0 rfl rfl rfl (by decide)
      (by decide) rfl).1,
    (c1_round_robin.2.1 c1w_state c1w_pkt ex_list 0 rfl rfl rfl (by decide)
      (by decide) rfl).2,
    c1_round_robin.2.2 (bswap32 167772161) (bswap16 80) false false ex_list 0
      c1w_clients c1w_state (by decide) rfl rfl (by decide) (by decide)
      (by decide)⟩

/-! ## C2: connection affinity -/

/-- C2, counterexample.  A tracked connection stored in state `TimeWait`
receives an RST+ACK segment: the handler removes the entry, the state
machine then steps `TimeWait` to `Closed`, and `update_tcp_conns` fails
removing the already-removed key, so the handler aborts with a map error and
the packet is not rewritten to the stored backend. -/
theorem c2_counterexample :
    mapLookup c2ex_state.LB_CONNECTIONS
      { ip := bswap32 c2ex_pkt.src_addr, port := bswap16 c2ex_pkt.source } =
      some c2ex_mapping ∧
    (handle_tcp_ingress c2ex_state c2ex_pkt).2 = IngressVerdict.mapFailure ∧
    (handle_tcp_ingress c2ex_state c2ex_pkt).2 ≠
      IngressVerdict.redirect c2ex_mapping.backend
        (bswap32 c2ex_mapping.backend.daddr)
        (bswap16 (c2ex_mapping.backend.dport % 65536)) := by
  decide

/-- C2, amended.  For every TCP ingress packet whose ClientKey has an entry
in `LB_CONNECTIONS`, the handler neither reads nor modifies
`GATEWAY_INDEXES` (and leaves `BACKENDS` unchanged), and it rewrites the
packet to the stored `Backend` — except in the RST corner where the stored
state steps to `Closed`, in which case the double remove makes the handler
abort with a map error and no rewrite happens. -/
theorem c2_affinity (st : LbState) (pkt : TcpPacket) (val : LoadBalancerMapping)
    (hc : mapLookup st.LB_CONNECTIONS
      { ip := bswap32 pkt.src_addr, port := bswap16 pkt.source } = some val) :
    ((handle_tcp_ingress st pkt).1.BACKENDS = st.BACKENDS ∧
      (handle_tcp_ingress st pkt).1.GATEWAY_INDEXES = st.GATEWAY_INDEXES) ∧
    (∀ g, handle_tcp_ingress { st with GATEWAY_INDEXES := g } pkt =
      ({ (handle_tcp_ingress st pkt).1 with GATEWAY_INDEXES := g },
        (handle_tcp_ingress st pkt).2)) ∧
    (rst_close_abort pkt val →
      (handle_tcp_ingress st pkt).2 = IngressVerdict.mapFailure) ∧
    (¬ rst_close_abort pkt val →
      (handle_tcp_ingress st pkt).2 =
        IngressVerdict.redirect val.backend (bswap32 val.backend.daddr)
          (bswap16 (val.backend.dport % 65536))) := by
  have hmain := handle_tcp_ingress_tracked st pkt val hc
  refine ⟨⟨?_, ?_⟩, ?_, ?_, ?_⟩
  · rw [hmain]
  · rw [hmain]
  · intro g
    rw [handle_tcp_ingress_tracked { st with GATEWAY_INDEXES := g } pkt val hc,
      hmain]
  · intro hab
    rw [hmain]
    exact (tcp_ingress_tail_tracked_verdict pkt _ val false
      st.LB_CONNECTIONS hc).1 hab
  · intro hnab
    rw [hmain]
    exact (tcp_ingress_tail_tracked_verdict pkt _ val false
      st.LB_CONNECTIONS hc).2 hnab

/-- C2, witness: a plain data segment from a tracked client is redirected to
the stored backend. -/
theorem c2_affinity_witness :
    mapLookup c2ex_state.LB_CONNECTIONS
      { ip := bswap32 c2w_pkt.src_addr, port := bswap16 c2w_pkt.source } =
      some c2ex_mapping ∧
    (handle_tcp_ingress c2ex_state c2w_pkt).2 =
      IngressVerdict.redirect c2ex_mapping.backend
        (bswap32 c2ex_mapping.backend.daddr)
        (bswap16 (c2ex_mapping.backend.dport % 65536)) :=
  ⟨by decide,
    (c2_affinity c2ex_state c2w_pkt c2ex_mapping (by decide)).2.2.2
      (fun hab => absurd hab.1 (by decide))⟩

/-! ## C4: RST teardown -/

/-- `LB_CONNECTIONS` after the ingress tail on an RST packet for a tracked
TCP connection: the entry is erased, then re-inserted with the stepped state
exactly when the state machine transitioned to a non-`Closed` state. -/
theorem tcp_ingress_tail_rst_conns (pkt : TcpPacket) (ck : ClientKey)
    (val : LoadBalancerMapping)
    (conns : List (ClientKey × LoadBalancerMapping))
    (h : mapLookup conns ck = some val) (hrst : pkt.rst = true)
    (s : TCPState) (hts : val.tcp_state = some s) :
    (tcp_ingress_tail pkt ck val.backend val.backend_key val.tcp_state false conns).1 =
      (if (process_tcp_state_transition pkt.fin pkt.ack s).2 = true ∧
          (process_tcp_state_transition pkt.fin pkt.ack s).1 ≠ TCPState.Closed then
        mapUpsert (mapErase conns ck) ck
          { val with tcp_state := some (process_tcp_state_transition pkt.fin pkt.ack s).1 }
      else mapErase conns ck) := by
  unfold tcp_ingress_tail
  simp only [LoadBalancerMapping_eta]
  rw [hrst]
  rw [show (if true = true then mapRemove conns ck else Except.ok conns) =
    mapRemove conns ck from rfl]
  rw [mapRemove_present h]
  simp only [exceptFold_ok]
  simp only [update_tcp_conns_some pkt.fin pkt.ack ck val s hts]
  by_cases hcl : (process_tcp_state_transition pkt.fin pkt.ack s).1 = TCPState.Closed
  · rw [if_pos hcl, mapRemove_absent (mapLookup_erase_self conns ck)]
    simp only [Except.map, exceptFold_error]
    rw [if_neg (by rintro ⟨_, hne⟩; exact hne hcl)]
  · rw [if_neg hcl]
    by_cases htr : (process_tcp_state_transition pkt.fin pkt.ack s).2 = true
    · rw [if_pos htr]
      simp only [exceptFold_ok]
      rw [if_neg Bool.false_ne_true, if_pos (And.intro htr hcl)]
    · rw [if_neg htr]
      simp only [exceptFold_ok]
      rw [if_neg Bool.false_ne_true,
        if_neg (show ¬((process_tcp_state_transition pkt.fin pkt.ack s).2 = true ∧
          (process_tcp_state_transition pkt.fin pkt.ack s).1 ≠ TCPState.Closed)
          from fun hand => htr hand.1)]

/-- Same fact for the egress tail. -/
theorem tcp_egress_tail_rst_conns (pkt : TcpPacket) (ck : ClientKey)
    (val : LoadBalancerMapping)
    (conns : List (ClientKey × LoadBalancerMapping))
    (h : mapLookup conns ck = some val) (hrst : pkt.rst = true)
    (s : TCPState) (hts : val.tcp_state = some s) :
    (tcp_egress_tail pkt ck val conns).1 =
      (if (process_tcp_state_transition pkt.fin pkt.ack s).2 = true ∧
          (process_tcp_state_transition pkt.fin pkt.ack s).1 ≠ TCPState.Closed then
        mapUpsert (mapErase conns ck) ck
          { val with tcp_state := some (process_tcp_state_transition pkt.fin pkt.ack s).1 }
      else mapErase conns ck) := by
  unfold tcp_egress_tail
  rw [hrst]
  rw [show (if true = true then mapRemove conns ck else Except.ok conns) =
    mapRemove conns ck from rfl]
  rw [mapRemove_present h]
  simp only [exceptFold_ok]
  simp only [update_tcp_conns_some pkt.fin pkt.ack ck val s hts]
  by_cases hcl : (process_tcp_state_transition pkt.fin pkt.ack s).1 = TCPState.Closed
  · rw [if_pos hcl, mapRemove_absent (mapLookup_erase_self conns ck)]
    simp only [Except.map, exceptFold_error]
    rw [if_neg (by rintro ⟨_, hne⟩; exact hne hcl)]
  · rw [if_neg hcl]
    by_cases htr : (process_tcp_state_transition pkt.fin pkt.ack s).2 = true
    · rw [if_pos htr]
      simp only [exceptFold_ok]
      rw [if_pos (And.intro htr hcl)]
    · rw [if_neg htr]
      simp only [exceptFold_ok]
      rw [if_neg (show ¬((process_tcp_state_transition pkt.fin pkt.ack s).2 = true ∧
          (process_tcp_state_transition pkt.fin pkt.ack s).1 ≠ TCPState.Closed)
          from fun hand => htr hand.1)]

/-- On a tracked connection, `handle_tcp_egress` SNATs to the stored
`backend_key` and runs the egress tail; only `LB_CONNECTIONS` changes. -/
theorem handle_tcp_egress_tracked (st : LbState) (pkt : TcpPacket)
    (val : LoadBalancerMapping)
    (hc : mapLookup st.LB_CONNECTIONS
      { ip := bswap32 pkt.dst_addr, port := bswap16 pkt.dest } = some val) :
    handle_tcp_egress st pkt =
      { state := { st with LB_CONNECTIONS :=
          (tcp_egress_tail pkt { ip := bswap32 pkt.dst_addr, port := bswap16 pkt.dest }
            val st.LB_CONNECTIONS).1 },
        snat := some (bswap32 val.backend_key.ip,
          bswap16 (val.backend_key.port % 65536)),
        failed := (tcp_egress_tail pkt
          { ip := bswap32 pkt.dst_addr, port := bswap16 pkt.dest }
          val st.LB_CONNECTIONS).2 } := by
  unfold handle_tcp_egress
  simp only [hc]

/-- C4, counterexample.  A tracked connection stored as `Established`
receives an RST+FIN segment on ingress: the entry is removed, but the state
machine — consulted right after — transitions `Established` to `FinWait1`
and re-inserts the mapping, so after the handler the ClientKey is present
again, not absent as the claim states. -/
theorem c4_counterexample :
    c4ex_pkt.rst = true ∧
    mapLookup c4ex_state.LB_CONNECTIONS
      { ip := bswap32 c4ex_pkt.src_addr, port := bswap16 c4ex_pkt.source } =
      some c4ex_mapping ∧
    mapLookup ((handle_tcp_ingress c4ex_state c4ex_pkt).1).LB_CONNECTIONS
      { ip := bswap32 c4ex_pkt.src_addr, port := bswap16 c4ex_pkt.source } =
      some { c4ex_mapping with tcp_state := some TCPState.FinWait1 } := by
  decide

/-- C4, amended.  For a TCP packet carrying RST whose ClientKey is tracked
with TCP state `s`, both handlers first remove the entry, but then still run
the state machine: the ClientKey is present after the handler exactly when
the machine transitioned from `s` to a non-`Closed` state (the mapping is
re-inserted with the stepped state); with no applicable transition — e.g. a
pure RST with FIN and ACK clear — the key is absent. -/
theorem c4_rst_removal (st : LbState) (pkt : TcpPacket)
    (val : LoadBalancerMapping) (s : TCPState)
    (hrst : pkt.rst = true) (hts : val.tcp_state = some s) :
    (mapLookup st.LB_CONNECTIONS
        { ip := bswap32 pkt.src_addr, port := bswap16 pkt.source } = some val →
      mapLookup ((handle_tcp_ingress st pkt).1).LB_CONNECTIONS
        { ip := bswap32 pkt.src_addr, port := bswap16 pkt.source } =
        (if (process_tcp_state_transition pkt.fin pkt.ack s).2 = true ∧
            (process_tcp_state_transition pkt.fin pkt.ack s).1 ≠ TCPState.Closed then
          some { val with tcp_state := some (process_tcp_state_transition pkt.fin pkt.ack s).1 }
        else none)) ∧
    (mapLookup st.LB_CONNECTIONS
        { ip := bswap32 pkt.dst_addr, port := bswap16 pkt.dest } = some val →
      mapLookup ((handle_tcp_egress st pkt).state).LB_CONNECTIONS
        { ip := bswap32 pkt.dst_addr, port := bswap16 pkt.dest } =
        (if (process_tcp_state_transition pkt.fin pkt.ack s).2 = true ∧
            (process_tcp_state_transition pkt.fin pkt.ack s).1 ≠ TCPState.Closed then
          some { val with tcp_state := some (process_tcp_state_transition pkt.fin pkt.ack s).1 }
        else none)) := by
  constructor
  · intro hc
    rw [handle_tcp_ingress_tracked st pkt val hc]
    dsimp only
    rw [tcp_ingress_tail_rst_conns pkt _ val st.LB_CONNECTIONS hc hrst s hts]
    by_cases hcond : (process_tcp_state_transition pkt.fin pkt.ack s).2 = true ∧
        (process_tcp_state_transition pkt.fin pkt.ack s).1 ≠ TCPState.Closed
    · rw [if_pos hcond, if_pos hcond, mapLookup_upsert_self]
    · rw [if_neg hcond, if_neg hcond, mapLookup_erase_self]
  · intro hc
    rw [handle_tcp_egress_tracked st pkt val hc]
    dsimp only
    rw [tcp_egress_tail_rst_conns pkt _ val st.LB_CONNECTIONS hc hrst s hts]
    by_cases hcond : (process_tcp_state_transition pkt.fin pkt.ack s).2 = true ∧
        (process_tcp_state_transition pkt.fin pkt.ack s).1 ≠ TCPState.Closed
    · rw [if_pos hcond, if_pos hcond, mapLookup_upsert_self]
    · rw [if_neg hcond, if_neg hcond, mapLookup_erase_self]

/-- C4, witness: a pure RST (FIN and ACK clear) on a tracked `Established`
connection leaves the ClientKey absent after both the ingress and the egress
handler. -/
theorem c4_rst_removal_witness :
    c4w_pkt.rst = true ∧
    c4ex_mapping.tcp_state = some TCPState.Established ∧
    mapLookup c4ex_state.LB_CONNECTIONS
      { ip := bswap32 c4w_pkt.src_addr, port := bswap16 c4w_pkt.source } =
      some c4ex_mapping ∧
    mapLookup ((handle_tcp_ingress c4ex_state c4w_pkt).1).LB_CONNECTIONS
      { ip := bswap32 c4w_pkt.src_addr, port := bswap16 c4w_pkt.source } = none ∧
    mapLookup c4w_estate.LB_CONNECTIONS
      { ip := bswap32 c4w_pkt.dst_addr, port := bswap16 c4w_pkt.dest } =
      some c4ex_mapping ∧
    mapLookup ((handle_tcp_egress c4w_estate c4w_pkt).state).LB_CONNECTIONS
      { ip := bswap32 c4w_pkt.dst_addr, port := bswap16 c4w_pkt.dest } = none :=
  ⟨rfl, rfl, by decide,
    ((c4_rst_removal c4ex_state c4w_pkt c4ex_mapping TCPState.Established
      rfl rfl).1 (by decide)).trans (by decide),
    by decide,
    ((c4_rst_removal c4w_estate c4w_pkt c4ex_mapping TCPState.Established
      rfl rfl).2 (by decide)).trans (by decide)⟩

/-! ## C5: egress SNAT and the ingress/egress round trip -/

/-- C5.  (i) For every outbound TCP frame whose ClientKey (IPv4 destination,
TCP destination port) is tracked, the egress handler rewrites the source
address/port to the stored `backend_key`; (ii) composing: a packet accepted
and rewritten by ingress as a fresh connection, mirrored back (destination =
original source), has its source restored to the original VIP destination
address and port bit-for-bit. -/
theorem c5_egress_snat_roundtrip :
    (∀ (st : LbState) (pkt : TcpPacket) (val : LoadBalancerMapping),
      mapLookup st.LB_CONNECTIONS
        { ip := bswap32 pkt.dst_addr, port := bswap16 pkt.dest } = some val →
      (handle_tcp_egress st pkt).snat =
        some (bswap32 val.backend_key.ip, bswap16 (val.backend_key.port % 65536))) ∧
    (∀ (st : LbState) (pkt pkt2 : TcpPacket) (list : BackendList) (i : Nat),
      mapLookup st.LB_CONNECTIONS
        { ip := bswap32 pkt.src_addr, port := bswap16 pkt.source } = none →
      mapLookup st.BACKENDS
        { ip := bswap32 pkt.dst_addr, port := bswap16 pkt.dest } = some list →
      mapLookup st.GATEWAY_INDEXES
        { ip := bswap32 pkt.dst_addr, port := bswap16 pkt.dest } = some i →
      i < list.backends_len → i < BACKENDS_ARRAY_CAPACITY → pkt.rst = false →
      pkt.dst_addr < 2 ^ 32 → pkt.dest < 2 ^ 16 →
      pkt2.dst_addr = pkt.src_addr → pkt2.dest = pkt.source →
      (handle_tcp_egress (handle_tcp_ingress st pkt).1 pkt2).snat =
        some (pkt.dst_addr, pkt.dest)) := by
  constructor
  · intro st pkt val hc
    rw [handle_tcp_egress_tracked st pkt val hc]
  · intro st pkt pkt2 list i hc hb hg hlen hcap hrst hd32 hd16 hpd hpp
    have hstep := handle_tcp_ingress_new st pkt list i hc hb hg hlen hcap
    have htail := tcp_ingress_tail_new pkt
      { ip := bswap32 pkt.src_addr, port := bswap16 pkt.source }
      (list.backends i) { ip := bswap32 pkt.dst_addr, port := bswap16 pkt.dest }
      st.LB_CONNECTIONS hrst
    rw [htail] at hstep
    have hlook : mapLookup ((handle_tcp_ingress st pkt).1).LB_CONNECTIONS
        { ip := bswap32 pkt2.dst_addr, port := bswap16 pkt2.dest } =
        some { backend := list.backends i,
               backend_key := { ip := bswap32 pkt.dst_addr, port := bswap16 pkt.dest },
               tcp_state := some (process_tcp_state_transition pkt.fin pkt.ack
                 TCPState.Established).1 } := by
      rw [hpd, hpp, hstep]
      dsimp only
      rw [mapLookup_upsert_self]
    rw [handle_tcp_egress_tracked _ pkt2 _ hlook]
    dsimp only
    rw [Nat.mod_eq_of_lt (show bswap16 pkt.dest < 65536 from bswap16_lt pkt.dest),
      bswap32_bswap32 _ hd32, bswap16_bswap16 _ hd16]

/-- C5, witness: the S1 SYN dispatched by ingress, mirrored back on egress,
has its source restored to the VIP 10.0.0.1:80; and the general SNAT fact at
a tracked mapping. -/
theorem c5_egress_snat_roundtrip_witness :
    mapLookup c4w_estate.LB_CONNECTIONS
      { ip := bswap32 c2w_pkt.dst_addr, port := bswap16 c2w_pkt.dest } =
      some c4ex_mapping ∧
    (handle_tcp_egress c4w_estate c2w_pkt).snat =
      some (bswap32 c4ex_mapping.backend_key.ip,
        bswap16 (c4ex_mapping.backend_key.port % 65536)) ∧
    (handle_tcp_egress (handle_tcp_ingress c1w_state c1w_pkt).1 c5w_pkt).snat =
      some (c1w_pkt.dst_addr, c1w_pkt.dest) :=
  ⟨by decide,
    c5_egress_snat_roundtrip.1 c4w_estate c2w_pkt c4ex_mapping (by decide),
    c5_egress_snat_roundtrip.2 c1w_state c1w_pkt c5w_pkt ex_list 0 rfl rfl rfl
      (by decide) (by decide) rfl (by decide) (by decide) rfl rfl⟩

/-! ## RPC-service lemmas -/

/-- The target loop succeeds within capacity on resolvable targets and
appends one truncated backend per target. -/
theorem update_build_backends_ok (resolver : Nat → Option Nat) :
    ∀ (ts : List Target) (acc : List Backend),
      (∀ t ∈ ts, (resolved_ifindex resolver t).isSome) →
      acc.length + ts.length ≤ BACKENDS_ARRAY_CAPACITY →
      update_build_backends resolver ts acc =
        Except.ok (acc ++ ts.map (fun t =>
          Backend.mk t.daddr t.dport (((resolved_ifindex resolver t).getD 0) % 65536))) := by
  intro ts
  induction ts with
  | nil =>
    intro acc _ _
    simp [update_build_backends]
  | cons t rest ih =>
    intro acc hres hlen
    obtain ⟨v, hv⟩ := Option.isSome_iff_exists.mp (hres t (List.mem_cons_self _ _))
    have hlt : acc.length < BACKENDS_ARRAY_CAPACITY := by
      simp only [List.length_cons] at hlen
      omega
    simp only [update_build_backends, hv]
    rw [if_pos hlt]
    rw [ih (acc ++ [Backend.mk t.daddr t.dport (v % 65536)])
      (fun u hu => hres u (List.mem_cons_of_mem _ hu))
      (by simp only [List.length_append, List.length_cons, List.length_nil,
        List.length_cons] at hlen ⊢; omega)]
    simp [hv, List.append_assoc]

/-- The target loop fails with `resourceExhausted` as soon as the targets
outnumber the remaining capacity (resolvable targets). -/
theorem update_build_backends_exhausted (resolver : Nat → Option Nat) :
    ∀ (ts : List Target) (acc : List Backend),
      (∀ t ∈ ts, (resolved_ifindex resolver t).isSome) →
      acc.length ≤ BACKENDS_ARRAY_CAPACITY →
      BACKENDS_ARRAY_CAPACITY < acc.length + ts.length →
      update_build_backends resolver ts acc =
        Except.error GrpcStatus.resourceExhausted := by
  intro ts
  induction ts with
  | nil =>
    intro acc _ hle hgt
    exfalso
    simp only [List.length_nil] at hgt
    omega
  | cons t rest ih =>
    intro acc hres hle hgt
    obtain ⟨v, hv⟩ := Option.isSome_iff_exists.mp (hres t (List.mem_cons_self _ _))
    simp only [update_build_backends, hv]
    by_cases hlt : acc.length < BACKENDS_ARRAY_CAPACITY
    · rw [if_pos hlt]
      refine ih (acc ++ [Backend.mk t.daddr t.dport (v % 65536)])
        (fun u hu => hres u (List.mem_cons_of_mem _ hu)) ?_ ?_
      · simp only [List.length_append, List.length_cons, List.length_nil]
        omega
      · simp only [List.length_append, List.length_cons, List.length_nil] at hgt ⊢
        omega
    · rw [if_neg hlt]

/-- Entries surviving the purge never carry the deleted key. -/
theorem mem_purge_conns (key : BackendKey) :
    ∀ (conns : List (ClientKey × LoadBalancerMapping)),
      ∀ e ∈ purge_conns conns key, e.2.backend_key ≠ key := by
  intro conns
  induction conns with
  | nil =>
    intro e he
    simp [purge_conns] at he
  | cons c rest ih =>
    intro e he
    by_cases hk : c.2.backend_key = key
    · rw [purge_conns, if_pos hk] at he
      exact ih e he
    · rw [purge_conns, if_neg hk] at he
      rcases List.mem_cons.mp he with he1 | he2
      · rw [he1]
        exact hk
      · exact ih e he2

/-- `remove` when the `BACKENDS` entry is missing: no effect, not-found. -/
theorem remove_absent_backends (st : LbState) (key : BackendKey)
    (h : mapLookup st.BACKENDS key = none) :
    BackendService.remove st key = (st, some MapErr.notFound) := by
  unfold BackendService.remove
  rw [mapRemove_absent h]
  rfl

/-- `remove` when `BACKENDS` has the key but `GATEWAY_INDEXES` does not:
the `BACKENDS` erase sticks, then the error aborts before the purge. -/
theorem remove_absent_gateway (st : LbState) (key : BackendKey)
    (bl : BackendList) (hb : mapLookup st.BACKENDS key = some bl)
    (hg : mapLookup st.GATEWAY_INDEXES key = none) :
    BackendService.remove st key =
      ({ st with BACKENDS := mapErase st.BACKENDS key }, some MapErr.notFound) := by
  unfold BackendService.remove
  rw [mapRemove_present hb]
  simp only [exceptFold_ok]
  rw [mapRemove_absent hg]
  rfl

/-- `remove` when both entries are present: both erased, orphans purged. -/
theorem remove_present (st : LbState) (key : BackendKey)
    (bl : BackendList) (cur : Nat)
    (hb : mapLookup st.BACKENDS key = some bl)
    (hg : mapLookup st.GATEWAY_INDEXES key = some cur) :
    BackendService.remove st key =
      ({ BACKENDS := mapErase st.BACKENDS key,
         GATEWAY_INDEXES := mapErase st.GATEWAY_INDEXES key,
         LB_CONNECTIONS := purge_conns st.LB_CONNECTIONS key }, none) := by
  unfold BackendService.remove
  rw [mapRemove_present hb]
  simp only [exceptFold_ok]
  rw [mapRemove_present hg]
  simp only [exceptFold_ok]

/-- `delete` reports success whatever `remove` did (in the ideal-map model
the only failure is not-found, which the handler maps to success). -/
theorem delete_status_ok (st : LbState) (vip : Vip) :
    (Backends.delete st vip).2 = GrpcStatus.ok := by
  rcases h : BackendService.remove st { ip := vip.ip, port := vip.port } with ⟨st1, e⟩
  simp only [Backends.delete, h]
  cases e with
  | none => rfl
  | some me => cases me; rfl

/-! ## C6: delete purges every reference -/

/-- C6.  Under the data-model invariants of §3 (every `GATEWAY_INDEXES` key
exists in `BACKENDS`; every tracked mapping's `backend_key` exists in
`GATEWAY_INDEXES`), after `Delete(vip)` — which reports success — no entry
keyed by `BackendKey(vip)` exists in `BACKENDS` or `GATEWAY_INDEXES`, and no
`LB_CONNECTIONS` mapping with that `backend_key` remains. -/
theorem c6_delete_purges (st : LbState) (vip : Vip)
    (hGB : ∀ e ∈ st.GATEWAY_INDEXES, (mapLookup st.BACKENDS e.1).isSome)
    (hCG : ∀ e ∈ st.LB_CONNECTIONS,
      (mapLookup st.GATEWAY_INDEXES e.2.backend_key).isSome) :
    (Backends.delete st vip).2 = GrpcStatus.ok ∧
    mapLookup ((Backends.delete st vip).1).BACKENDS
      { ip := vip.ip, port := vip.port } = none ∧
    mapLookup ((Backends.delete st vip).1).GATEWAY_INDEXES
      { ip := vip.ip, port := vip.port } = none ∧
    ∀ e ∈ ((Backends.delete st vip).1).LB_CONNECTIONS,
      e.2.backend_key ≠ { ip := vip.ip, port := vip.port } := by
  refine ⟨delete_status_ok st vip, ?_⟩
  have hGB2 : ∀ k, (mapLookup st.GATEWAY_INDEXES k).isSome →
      (mapLookup st.BACKENDS k).isSome := by
    intro k hk
    obtain ⟨x, hx⟩ := Option.isSome_iff_exists.mp hk
    exact hGB (k, x) (mem_of_mapLookup hx)
  rcases hbk : mapLookup st.BACKENDS { ip := vip.ip, port := vip.port } with _ | bl
  · -- the key is not even in BACKENDS: remove fails at once, state unchanged
    have hgk : mapLookup st.GATEWAY_INDEXES { ip := vip.ip, port := vip.port } = none := by
      rcases hg2 : mapLookup st.GATEWAY_INDEXES { ip := vip.ip, port := vip.port } with _ | x
      · rfl
      · exfalso
        have := hGB2 _ (by rw [hg2]; rfl)
        rw [hbk] at this
        simp at this
    have hdel : Backends.delete st vip = (st, GrpcStatus.ok) := by
      simp only [Backends.delete, remove_absent_backends st _ hbk]
    rw [hdel]
    refine ⟨hbk, hgk, ?_⟩
    intro e he hkey
    have := hCG e he
    rw [hkey, hgk] at this
    simp at this
  · rcases hgk : mapLookup st.GATEWAY_INDEXES { ip := vip.ip, port := vip.port } with _ | cur
    · -- in BACKENDS but not in GATEWAY_INDEXES: BACKENDS erased, early return
      have hdel : Backends.delete st vip =
          ({ st with BACKENDS := mapErase st.BACKENDS { ip := vip.ip, port := vip.port } },
            GrpcStatus.ok) := by
        simp only [Backends.delete, remove_absent_gateway st _ bl hbk hgk]
      rw [hdel]
      refine ⟨mapLookup_erase_self _ _, hgk, ?_⟩
      intro e he hkey
      have := hCG e he
      rw [hkey, hgk] at this
      simp at this
    · -- both present: full removal and purge
      have hdel : Backends.delete st vip =
          ({ BACKENDS := mapErase st.BACKENDS { ip := vip.ip, port := vip.port },
             GATEWAY_INDEXES := mapErase st.GATEWAY_INDEXES { ip := vip.ip, port := vip.port },
             LB_CONNECTIONS := purge_conns st.LB_CONNECTIONS { ip := vip.ip, port := vip.port } },
            GrpcStatus.ok) := by
        simp only [Backends.delete, remove_present st _ bl cur hbk hgk]
      rw [hdel]
      exact ⟨mapLookup_erase_self _ _, mapLookup_erase_self _ _,
        mem_purge_conns _ _⟩

/-- C6, witness: a state holding the published VIP, its cursor and one
tracked flow of that VIP; the delete empties all three references. -/
theorem c6_delete_purges_witness :
    (Backends.delete c6w_state ex_vip).2 = GrpcStatus.ok ∧
    mapLookup ((Backends.delete c6w_state ex_vip).1).BACKENDS
      { ip := ex_vip.ip, port := ex_vip.port } = none ∧
    mapLookup ((Backends.delete c6w_state ex_vip).1).GATEWAY_INDEXES
      { ip := ex_vip.ip, port := ex_vip.port } = none ∧
    ∀ e ∈ ((Backends.delete c6w_state ex_vip).1).LB_CONNECTIONS,
      e.2.backend_key ≠ { ip := ex_vip.ip, port := ex_vip.port } :=
  c6_delete_purges c6w_state ex_vip (by decide) (by decide)

/-! ## C9: delete is idempotent -/

/-- C9.  Deleting a VIP whose key is not in `BACKENDS` succeeds and leaves
the state unchanged; and a second Delete right after any Delete also
reports success. -/
theorem c9_delete_idempotent :
    (∀ (st : LbState) (vip : Vip),
      mapLookup st.BACKENDS { ip := vip.ip, port := vip.port } = none →
      Backends.delete st vip = (st, GrpcStatus.ok)) ∧
    (∀ (st : LbState) (vip : Vip),
      (Backends.delete st vip).2 = GrpcStatus.ok ∧
      (Backends.delete (Backends.delete st vip).1 vip).2 = GrpcStatus.ok) := by
  constructor
  · intro st vip h
    simp only [Backends.delete, remove_absent_backends st _ h]
  · intro st vip
    exact ⟨delete_status_ok st vip, delete_status_ok _ vip⟩

/-- C9, witness: deleting a VIP from the empty state succeeds unchanged,
and the double delete on a populated state reports success twice. -/
theorem c9_delete_idempotent_witness :
    Backends.delete ex_empty ex_vip = (ex_empty, GrpcStatus.ok) ∧
    (Backends.delete c6w_state ex_vip).2 = GrpcStatus.ok ∧
    (Backends.delete (Backends.delete c6w_state ex_vip).1 ex_vip).2 =
      GrpcStatus.ok :=
  ⟨c9_delete_idempotent.1 ex_empty ex_vip rfl,
    c9_delete_idempotent.2 c6w_state ex_vip⟩

/-! ## C7: capacity check on Update -/

set_option maxRecDepth 8192 in
/-- C7, counterexample.  An `Update` request with 129 targets but no `vip`
is rejected as `invalidArgument`, not `resourceExhausted`: the missing-vip
check runs before the capacity check, so not every request with more than
128 targets yields resource-exhausted. -/
theorem c7_counterexample :
    c7ex_targets.targets.length = 129 ∧
    c7ex_targets.vip = none ∧
    (Backends.update c7ex_resolver ex_empty c7ex_targets).2 =
      GrpcStatus.invalidArgument ∧
    GrpcStatus.invalidArgument ≠ GrpcStatus.resourceExhausted := by
  refine ⟨by decide, rfl, rfl, by decide⟩

/-- C7, amended.  For every `Update` request that carries a `vip` and whose
targets all resolve to an interface index: with more than 128 targets the
handler returns `resourceExhausted` and no map is modified; with at most 128
targets it succeeds and publishes a `BackendList` whose `backends_len`
equals the number of targets. -/
theorem c7_update_capacity (resolver : Nat → Option Nat) (st : LbState)
    (targets : Targets) (vip : Vip) (hvip : targets.vip = some vip)
    (hres : ∀ t ∈ targets.targets, (resolved_ifindex resolver t).isSome) :
    (BACKENDS_ARRAY_CAPACITY < targets.targets.length →
      Backends.update resolver st targets = (st, GrpcStatus.resourceExhausted)) ∧
    (targets.targets.length ≤ BACKENDS_ARRAY_CAPACITY →
      (Backends.update resolver st targets).2 = GrpcStatus.ok ∧
      ∃ bl, mapLookup ((Backends.update resolver st targets).1).BACKENDS
        { ip := vip.ip, port := vip.port } = some bl ∧
        bl.backends_len = targets.targets.length) := by
  constructor
  · intro hgt
    simp only [Backends.update, hvip]
    rw [update_build_backends_exhausted resolver targets.targets [] hres
      (by simp [BACKENDS_ARRAY_CAPACITY]) (by simpa using hgt)]
    rfl
  · intro hle
    simp only [Backends.update, hvip]
    rw [update_build_backends_ok resolver targets.targets [] hres (by simpa using hle)]
    simp only [exceptFold_ok]
    constructor
    · trivial
    · simp only [insert_and_reset_index]
      exact ⟨_, mapLookup_upsert_self _ _ _, by simp⟩

set_option maxRecDepth 8192 in
/-- C7, witness: with a vip and 129 explicitly-indexed targets the handler
reports `resourceExhausted` with the maps untouched; the same request
truncated would fit, e.g. the single-target request is published with
`backends_len` 1. -/
theorem c7_update_capacity_witness :
    (∀ t ∈ c7w_targets.targets, (resolved_ifindex c7ex_resolver t).isSome) ∧
    BACKENDS_ARRAY_CAPACITY < c7w_targets.targets.length ∧
    Backends.update c7ex_resolver ex_empty c7w_targets =
      (ex_empty, GrpcStatus.resourceExhausted) ∧
    (Backends.update c7ex_resolver ex_empty c10w_targets).2 = GrpcStatus.ok ∧
    ∃ bl, mapLookup ((Backends.update c7ex_resolver ex_empty c10w_targets).1).BACKENDS
      { ip := ex_vip.ip, port := ex_vip.port } = some bl ∧
      bl.backends_len = c10w_targets.targets.length :=
  ⟨by decide, by decide,
    (c7_update_capacity c7ex_resolver ex_empty c7w_targets ex_vip rfl
      (by decide)).1 (by decide),
    (c7_update_capacity c7ex_resolver ex_empty c10w_targets ex_vip rfl
      (by decide)).2 (by decide)⟩

/-! ## C10: silent 16-bit truncation of the interface index -/

/-- C10.  For an `Update` target whose interface index `v` (explicit or
resolved) is 65536 or larger, the request still succeeds and the stored
`Backend.ifindex` equals `v mod 2^16` — a proper truncation, reported as no
error. -/
theorem c10_ifindex_truncation (resolver : Nat → Option Nat) (st : LbState)
    (targets : Targets) (vip : Vip) (j : Nat) (t : Target) (v : Nat)
    (hvip : targets.vip = some vip)
    (hres : ∀ u ∈ targets.targets, (resolved_ifindex resolver u).isSome)
    (hle : targets.targets.length ≤ BACKENDS_ARRAY_CAPACITY)
    (hj : targets.targets.get? j = some t)
    (hv : resolved_ifindex resolver t = some v)
    (hbig : 2 ^ 16 ≤ v) :
    (Backends.update resolver st targets).2 = GrpcStatus.ok ∧
    ∃ bl, mapLookup ((Backends.update resolver st targets).1).BACKENDS
      { ip := vip.ip, port := vip.port } = some bl ∧
      bl.backends j = Backend.mk t.daddr t.dport (v % 65536) ∧
      v % 65536 ≠ v ∧
      bl.backends_len = targets.targets.length := by
  simp only [Backends.update, hvip]
  rw [update_build_backends_ok resolver targets.targets [] hres (by simpa using hle)]
  simp only [exceptFold_ok]
  constructor
  · trivial
  · simp only [insert_and_reset_index]
    refine ⟨_, mapLookup_upsert_self _ _ _, ?_, ?_, ?_⟩
    · dsimp only
      simp only [List.nil_append]
      rw [List.getD_eq_getElem?_getD, List.getElem?_map, ← List.get?_eq_getElem?, hj]
      simp [hv]
    · have hbig2 : 65536 ≤ v := hbig
      have hlt : v % 65536 < 65536 := Nat.mod_lt _ (by omega)
      omega
    · simp

/-- C10, witness: a single target with explicit interface index 70000 is
accepted, and the stored `ifindex` is `70000 mod 65536 = 4464`. -/
theorem c10_ifindex_truncation_witness :
    (Backends.update c7ex_resolver ex_empty c10w_targets).2 = GrpcStatus.ok ∧
    ∃ bl, mapLookup ((Backends.update c7ex_resolver ex_empty c10w_targets).1).BACKENDS
      { ip := ex_vip.ip, port := ex_vip.port } = some bl ∧
      bl.backends 0 = Backend.mk 167772417 8080 (70000 % 65536) ∧
      70000 % 65536 ≠ 70000 ∧
      bl.backends_len = c10w_targets.targets.length :=
  c10_ifindex_truncation c7ex_resolver ex_empty c10w_targets ex_vip 0
    { daddr := 167772417, dport := 8080, ifindex := some 70000 } 70000
    rfl (by decide) (by decide) rfl rfl (by decide)

/-! ## C8: the classifier entry point -/

/-- C8.  The classifier entry point as shipped: `try_tc_ingress` computes
the redirect verdict for a UDP frame to a known VIP (here the primitive
reports `TC_ACT_REDIRECT` = 7), but `tc_ingress` discards that verdict and
returns `TC_ACT_OK` for every frame whatsoever; a TCP frame (protocol 6) to
the same VIP is passed through (`TC_ACT_PIPE`) without any rewrite or
redirect. -/
theorem c8_verdict_discarded :
    bswap16 c8_frame.h_proto = ETH_P_IP ∧
    c8_frame.protocol = IPPROTO_UDP ∧
    mapLookup c8_backends
      { ip := bswap32 c8_frame.daddr, port := bswap16 c8_frame.dest } =
      some ex_backend ∧
    try_tc_ingress c8_redirect c8_backends c8_frame = Except.ok 7 ∧
    tc_ingress c8_redirect c8_backends c8_frame = TC_ACT_OK ∧
    (7 : Int) ≠ TC_ACT_OK ∧
    (∀ (redirect : Nat → Int) (B : List (BackendKey × Backend))
      (frame : IngressFrame), tc_ingress redirect B frame = TC_ACT_OK) ∧
    try_tc_ingress c8_redirect c8_backends { c8_frame with protocol := 6 } =
      Except.ok TC_ACT_PIPE := by
  refine ⟨by decide, rfl, by decide, rfl, rfl, by decide,
    fun _ _ _ => rfl, rfl⟩

end Blixt
